import Mathlib

/-!
Shallow embedding of the twitter-utils publishing service
(`src/publishingService.js`, `src/utils.js`, `src/mediaUpload.js`).

Effectful JavaScript functions are modelled as pure Lean functions over an
explicit environment `Env` that fixes the outcome of every external call
(provider HTTP calls, Firestore reads and writes), together with a state
`St` carrying the mutable credentials object and an ordered trace of the
external calls actually performed.  A thrown JavaScript error is an
`Except.error` carrying the duck-typed fields the code inspects
(`code` / `status` / `statusCode` / `message`).
-/

set_option autoImplicit false

namespace TwitterUtils

/-- JavaScript truthiness of an optional string: `undefined` and the empty
string are falsy, every other string is truthy. -/
def strTruthy : Option String → Bool
  | some s => s != ""
  | none => false

/-- Whether the pattern (first argument) starts the character list
(second argument). -/
def charsStartWith : List Char → List Char → Bool
  | [], _ => true
  | _ :: _, [] => false
  | p :: ps, c :: cs => p == c && charsStartWith ps cs

/-- Whether the pattern (second argument) occurs inside the character
list (first argument) at any offset. -/
def charsContain : List Char → List Char → Bool
  | [], pat => pat.isEmpty
  | c :: rest, pat => charsStartWith pat (c :: rest) || charsContain rest pat

/-- JavaScript `s.includes(pat)` on strings: substring occurrence. -/
def jsIncludes (s pat : String) : Bool :=
  charsContain s.data pat.data

/-- JavaScript `o || d` for an optional string `o` with default `d`. -/
def jsOrStr (o : Option String) (d : String) : String :=
  match o with
  | some s => if s != "" then s else d
  | none => d

/-- JavaScript `o || d` for an optional number `o` with default `d`. -/
def jsOrNat (o : Option Nat) (d : Nat) : Nat :=
  match o with
  | some v => if v = 0 then d else v
  | none => d

/-- The `media` part of a payload: present only when the media-id list is
non-empty (JavaScript `options.mediaIds && options.mediaIds.length > 0`). -/
def jsListOpt (o : Option (List String)) : Option (List String) :=
  match o with
  | some l => if 0 < l.length then some l else none
  | none => none

/-- The `reply` part of a payload: present only when the reply target is a
truthy string. -/
def jsStrOpt (o : Option String) : Option String :=
  match o with
  | some s => if s != "" then some s else none
  | none => none

/-- A thrown JavaScript error, restricted to the fields this codebase
duck-types on. -/
structure JsError where
  code : Option Nat := none
  status : Option Nat := none
  statusCode : Option Nat := none
  message : String := ""
  deriving Repr, DecidableEq

/-- The auth-error duck-typing used both by `uploadMedia` and by
`publishTweetWithRefresh`: the error is 401-class when any of the numeric
fields is 401 or the message contains the substring "401".  (The two call
sites list the disjuncts in different orders; the Boolean value is the
same.) -/
def isAuthError (e : JsError) : Bool :=
  e.code == some 401 || jsIncludes e.message "401" ||
    e.status == some 401 || e.statusCode == some 401

/-- The `oauthCredentials` part of a stored Twitter credentials document. -/
structure OauthCredentials where
  accessToken : String
  refreshToken : Option String := none
  deriving Repr, DecidableEq

/-- A Twitter credentials document; `userId` is attached in memory by
`publishTweet` before publishing. -/
structure TwitterCredentials where
  userId : Option String := none
  oauthCredentials : OauthCredentials
  deriving Repr, DecidableEq

/-- The JSON payload built by `prepareTweetPayload` for the provider post
endpoint: `text` always, `media.media_ids` only when media ids are present
and non-empty, `reply.in_reply_to_tweet_id` only when a reply target is
set. -/
structure TweetPayload where
  text : String
  mediaIds : Option (List String) := none
  inReplyToTweetId : Option String := none
  deriving Repr, DecidableEq

/-- One external call performed by the service, recorded in order. -/
inductive Event where
  /-- A call of `uploadMediaToTwitter` (the whole INIT/APPEND/FINALIZE
  exchange with the provider media endpoints) under a bearer token. -/
  | mediaUpload (accessToken imageUrl : String)
  /-- A POST of a tweet payload to the provider post endpoint. -/
  | post (accessToken : String) (payload : TweetPayload)
  /-- A token exchange at the provider OAuth endpoint using a refresh
  token. -/
  | refresh (refreshToken : String)
  /-- A Firestore write of a refreshed token pair
  (`updateTwitterCredentials`). -/
  | credUpdate (userId accessToken refreshToken : String)
  /-- A Firestore write marking a tweet published (`updateTweetStatus`). -/
  | statusUpdate (projectId tweetId publishedTweetId text : String)
  deriving Repr, DecidableEq

def Event.isPost : Event → Bool
  | .post .. => true
  | _ => false

def Event.isMediaUpload : Event → Bool
  | .mediaUpload .. => true
  | _ => false

def Event.isRefresh : Event → Bool
  | .refresh .. => true
  | _ => false

def Event.isCredUpdate : Event → Bool
  | .credUpdate .. => true
  | _ => false

def Event.isStatusUpdate : Event → Bool
  | .statusUpdate .. => true
  | _ => false

def countPost (tr : List Event) : Nat := (tr.filter Event.isPost).length

def countMedia (tr : List Event) : Nat := (tr.filter Event.isMediaUpload).length

def countRefresh (tr : List Event) : Nat := (tr.filter Event.isRefresh).length

def countCredUpdate (tr : List Event) : Nat := (tr.filter Event.isCredUpdate).length

def countStatusUpdate (tr : List Event) : Nat := (tr.filter Event.isStatusUpdate).length

/-- Outcome of a provider post call: either the created tweet id, or a
non-success HTTP status together with the error message the code derives
from the response body. -/
inductive HttpPost where
  | ok (id : String)
  | notOk (status : Nat) (message : String)
  deriving Repr, DecidableEq

/-- Outcome of one whole `uploadMediaToTwitter` exchange: the media id, or
the thrown error. -/
inductive HttpMedia where
  | ok (mediaId : String)
  | err (e : JsError)
  deriving Repr, DecidableEq

/-- Outcome of the provider OAuth token exchange: the (possibly
incomplete) token fields of a success response, or a non-success HTTP
status with the derived message. -/
inductive HttpRefresh where
  | ok (accessToken refreshToken : Option String)
  | notOk (status : Nat) (message : String)
  deriving Repr, DecidableEq

/-- A `tweet_groups` document as read by `getTweetGroup`; the `isEnabled`
field may be absent. -/
structure GroupData where
  isEnabled : Option Bool := none
  deriving Repr, DecidableEq

/-- The result of `verifyProjectAccess` (an external collaborator from the
point of view of the claims). -/
structure ProjectAccess where
  isAuthorized : Bool
  error : Option String := none
  statusCode : Option Nat := none
  deriving Repr, DecidableEq

/-- The fields of a stored tweet document that are spread over the publish
options by `publishTweet` (the spread comes last, so present fields
override the caller-supplied options). -/
structure TweetDoc where
  text : Option String := none
  mediaIds : Option (List String) := none
  replyToTweetId : Option String := none
  imageUrl : Option String := none
  deriving Repr, DecidableEq

/-- The environment fixing every external outcome.  Call outcomes are
indexed by how many calls of that kind happened before (so the n-th post
call gets `postOutcome n`, and so on). -/
structure Env where
  postOutcome : Nat → HttpPost
  mediaOutcome : Nat → HttpMedia
  refreshOutcome : Nat → HttpRefresh
  credUpdateErr : Nat → Option JsError
  statusUpdateErr : Nat → Option JsError
  projectAccess : String → String → ProjectAccess
  getCredentials : String → Option TwitterCredentials
  getGroup : String → Option GroupData
  tweetDoc : String → String → Option TweetDoc

/-- The mutable state threaded through a publish call: the in-memory
credentials object (shared and mutated across the call, as in the source)
and the trace of external calls performed so far. -/
structure St where
  creds : TwitterCredentials
  trace : List Event
  deriving Repr, DecidableEq

namespace utils

/-- `publishTweet` from `utils.js`: POSTs the payload with the given
bearer token; on a non-ok response it throws an error whose `code` is the
HTTP status and whose `message` is derived from the response body. -/
def publishTweet (env : Env) (accessToken : String) (payload : TweetPayload) (st : St) :
    Except JsError String × St :=
  let n := countPost st.trace
  let st1 : St := { st with trace := st.trace ++ [Event.post accessToken payload] }
  match env.postOutcome n with
  | HttpPost.ok id => (Except.ok id, st1)
  | HttpPost.notOk status msg => (Except.error { code := some status, message := msg }, st1)

/-- `refreshTwitterAccessToken` from `utils.js` (composed with
`refreshOAuthToken`): exchanges the stored refresh token; a non-ok HTTP
response throws with `code` = status; an ok response missing either token
throws; otherwise the new pair is returned. -/
def refreshTwitterAccessToken (env : Env) (creds : TwitterCredentials) (st : St) :
    Except JsError (String × String) × St :=
  let n := countRefresh st.trace
  let st1 : St := { st with
    trace := st.trace ++ [Event.refresh ((creds.oauthCredentials.refreshToken).getD "")] }
  match env.refreshOutcome n with
  | HttpRefresh.notOk status msg =>
      (Except.error { code := some status,
                      message := if msg != "" then msg
                                 else "Failed to refresh Twitter access token." }, st1)
  | HttpRefresh.ok a r =>
      if strTruthy a && strTruthy r then (Except.ok (a.getD "", r.getD ""), st1)
      else (Except.error { message := "Missing tokens in refresh response" }, st1)

end utils

/-- `uploadMediaToTwitter` from `mediaUpload.js`, abstracted for the
orchestration claims as a single provider interaction under one bearer
token: the HEAD probe, INIT, APPEND and FINALIZE phases either produce a
media id or throw.  (The FINALIZE processing poll is modelled in detail
separately by `checkMediaProcessingStatus`.) -/
def uploadMediaToTwitter (env : Env) (imageUrl accessToken : String) (st : St) :
    Except JsError String × St :=
  let n := countMedia st.trace
  let st1 : St := { st with trace := st.trace ++ [Event.mediaUpload accessToken imageUrl] }
  match env.mediaOutcome n with
  | HttpMedia.ok mid => (Except.ok mid, st1)
  | HttpMedia.err e => (Except.error e, st1)

/-- The return shape of `TwitterPublishingService.uploadMedia`. -/
structure MediaResult where
  media_id_string : String
  deriving Repr, DecidableEq

/-- The options record handed to `publishTweetWithRefresh` /
`prepareTweetPayload`.  The `twitterCredentials` property of the source is
always attached by the caller and lives in `St.creds` here. -/
structure PublishOptions where
  text : String
  mediaIds : Option (List String) := none
  replyToTweetId : Option String := none
  imageUrl : Option String := none
  accessToken : Option String := none
  deriving Repr, DecidableEq

/-- A machine-checkable error code attached to a `PublishResult`; the
source uses strings (for example `token_expired`) in some branches and the
numeric collaborator status code in others. -/
inductive ErrCode where
  | s (v : String)
  | n (v : Nat)
  deriving Repr, DecidableEq

/-- The structured result returned by the publishing methods; the nested
`error` object of the source is flattened into the optional fields. -/
structure PublishResult where
  success : Bool
  twitterTweetId : Option String := none
  publishedTweetId : Option String := none
  message : String
  errorCode : Option ErrCode := none
  errorDetails : Option String := none
  errorStatus : Option Nat := none
  errorOriginal : Option String := none
  deriving Repr, DecidableEq

/-- The `token_expired` failure built by the inner catch of
`publishTweetWithRefresh`. -/
def tokenExpiredResult (originalError : String) : PublishResult :=
  { success := false
    message := "Twitter authentication failed"
    errorCode := some (ErrCode.s "token_expired")
    errorDetails := some "Your Twitter connection has expired. Please reconnect your Twitter account."
    errorOriginal := some originalError }

/-- The `api_error` failure built at the end of the catch of
`publishTweetWithRefresh`; `status` is `publishError.status ||
publishError.statusCode` (note the post endpoint only ever sets `code`). -/
def apiErrorResult (e : JsError) : PublishResult :=
  { success := false
    message := "Failed to publish tweet"
    errorCode := some (ErrCode.s "api_error")
    errorDetails := some (if e.message != "" then e.message
                          else "An error occurred while publishing to Twitter")
    errorStatus := match e.status with
      | some v => if v = 0 then e.statusCode else some v
      | none => e.statusCode }

namespace TwitterPublishingService

/-- `updateTwitterCredentials`: Firestore write of the refreshed token
pair; the write may reject (modelled through `Env.credUpdateErr`). -/
def updateTwitterCredentials (env : Env) (userId accessToken refreshToken : String) (st : St) :
    Except JsError Unit × St :=
  let n := countCredUpdate st.trace
  let st1 : St := { st with trace := st.trace ++ [Event.credUpdate userId accessToken refreshToken] }
  match env.credUpdateErr n with
  | none => (Except.ok (), st1)
  | some e => (Except.error e, st1)

/-- `updateTweetStatus`: Firestore write marking the tweet published; the
write may reject (modelled through `Env.statusUpdateErr`). -/
def updateTweetStatus (env : Env) (projectId tweetId publishedTweetId publishedText : String)
    (st : St) : Except JsError Unit × St :=
  let n := countStatusUpdate st.trace
  let st1 : St := { st with
    trace := st.trace ++ [Event.statusUpdate projectId tweetId publishedTweetId publishedText] }
  match env.statusUpdateErr n with
  | none => (Except.ok (), st1)
  | some e => (Except.error e, st1)

/-- `uploadMedia`: one upload attempt; on a 401-class error with a refresh
token available and `retryCount < 2`, refresh the token, persist it,
update the in-memory credentials, and recurse with `retryCount + 1`.
Failures of the awaited refresh steps (the token exchange, the missing
user id, the credential write) are rethrown as the refresh-wrapped
message.  The recursive retry itself, however, is returned without await
(`return this.uploadMedia(...)`), so its rejection bypasses the
surrounding catch and its result — success or failure — propagates
unchanged; in particular a retry that exhausts the budget surfaces the
generic upload error.  Any non-auth failure is rethrown as the generic
upload error. -/
def uploadMedia (env : Env) (imageUrl : String) (retryCount : Nat) (st : St) :
    Except JsError MediaResult × St :=
  let accessToken := st.creds.oauthCredentials.accessToken
  match uploadMediaToTwitter env imageUrl accessToken st with
  | (Except.ok mid, st1) => (Except.ok { media_id_string := mid }, st1)
  | (Except.error e, st1) =>
    if h : retryCount < 2 ∧
        (isAuthError e && strTruthy st1.creds.oauthCredentials.refreshToken) = true then
      match utils.refreshTwitterAccessToken env st1.creds st1 with
      | (Except.error _, st2) =>
          (Except.error { message := "Error refreshing Twitter token during media upload" }, st2)
      | (Except.ok (na, nr), st2) =>
        if strTruthy st2.creds.userId then
          match updateTwitterCredentials env (st2.creds.userId.getD "") na nr st2 with
          | (Except.error _, st3) =>
              (Except.error { message := "Error refreshing Twitter token during media upload" }, st3)
          | (Except.ok _, st3) =>
            let st4 : St := { st3 with creds := { st3.creds with
              oauthCredentials := { accessToken := na, refreshToken := some nr } } }
            uploadMedia env imageUrl (retryCount + 1) st4
        else
          (Except.error { message := "Error refreshing Twitter token during media upload" }, st2)
    else
      (Except.error { message := "Error uploading media" }, st1)
  termination_by 2 - retryCount
  decreasing_by omega

/-- `prepareTweetPayload`: when an image URL and an access token are
present, upload the media (starting at `retryCount = 0`) and use the
resulting id as the sole media id; then build the minimal payload. -/
def prepareTweetPayload (env : Env) (options : PublishOptions) (st : St) :
    Except JsError TweetPayload × St :=
  let step : Except JsError PublishOptions × St :=
    if strTruthy options.imageUrl && strTruthy options.accessToken then
      match uploadMedia env (options.imageUrl.getD "") 0 st with
      | (Except.error e, st1) => (Except.error e, st1)
      | (Except.ok media, st1) =>
        if media.media_id_string != "" then
          (Except.ok { options with mediaIds := some [media.media_id_string] }, st1)
        else
          (Except.error { message := "Failed to upload media" }, st1)
    else
      (Except.ok options, st)
  match step with
  | (Except.error e, st1) => (Except.error e, st1)
  | (Except.ok opts, st1) =>
    (Except.ok
      { text := opts.text
        mediaIds := jsListOpt opts.mediaIds
        inReplyToTweetId := jsStrOpt opts.replyToTweetId }, st1)

/-- The catch block of `publishTweetWithRefresh`: on a 401-class error
with a refresh token available, refresh, persist the new pair, re-prepare
the payload with the new access token and retry the post once; every
failure inside that block yields the `token_expired` result.  All other
errors yield the `api_error` result.  Note that the in-memory credentials
object is not updated here (unlike in `uploadMedia`), so the re-prepared
media upload still sees the pre-refresh access token. -/
def publishTweetWithRefreshOnError (env : Env) (options : PublishOptions) (publishError : JsError)
    (st : St) : PublishResult × St :=
  if isAuthError publishError && strTruthy st.creds.oauthCredentials.refreshToken then
    match utils.refreshTwitterAccessToken env st.creds st with
    | (Except.error re, st1) => (tokenExpiredResult re.message, st1)
    | (Except.ok (na, nr), st1) =>
      if strTruthy st1.creds.userId then
        match updateTwitterCredentials env (st1.creds.userId.getD "") na nr st1 with
        | (Except.error re, st2) => (tokenExpiredResult re.message, st2)
        | (Except.ok _, st2) =>
          match prepareTweetPayload env { options with accessToken := some na } st2 with
          | (Except.error re, st3) => (tokenExpiredResult re.message, st3)
          | (Except.ok payload, st3) =>
            match utils.publishTweet env na payload st3 with
            | (Except.error re, st4) => (tokenExpiredResult re.message, st4)
            | (Except.ok id, st4) =>
                ({ success := true, twitterTweetId := some id,
                   message := "Tweet published successfully after refreshing credentials" }, st4)
      else (tokenExpiredResult "User ID is required for token refresh", st1)
  else (apiErrorResult publishError, st)

/-- `publishTweetWithRefresh`: prepare the payload and post it with the
current access token; any thrown error is handled by the catch block
(`publishTweetWithRefreshOnError`). -/
def publishTweetWithRefresh (env : Env) (options : PublishOptions) (st : St) :
    PublishResult × St :=
  let accessToken := st.creds.oauthCredentials.accessToken
  match prepareTweetPayload env { options with accessToken := some accessToken } st with
  | (Except.error e, st1) => publishTweetWithRefreshOnError env options e st1
  | (Except.ok payload, st1) =>
    match utils.publishTweet env accessToken payload st1 with
    | (Except.error e, st2) => publishTweetWithRefreshOnError env options e st2
    | (Except.ok id, st2) =>
        ({ success := true, twitterTweetId := some id, publishedTweetId := some id,
           message := "Tweet published successfully" }, st2)

/-- `getTwitterCredentials`: the stored document, provided its
`oauthCredentials.accessToken` is truthy; otherwise `null`. -/
def getTwitterCredentials (env : Env) (userId : String) : Option TwitterCredentials :=
  match env.getCredentials userId with
  | none => none
  | some c => if c.oauthCredentials.accessToken != "" then some c else none

/-- The `group && group.isEnabled === false` test guarding the group
skip. -/
def groupDisabled : Option GroupData → Bool
  | some g => g.isEnabled == some false
  | none => false

/-- The options record accepted by the service-level `publishTweet`. -/
structure ServiceOptions where
  tweetId : String
  projectId : String
  text : String
  mediaIds : Option (List String) := none
  replyToTweetId : Option String := none
  imageUrl : Option String := none
  groupId : Option String := none
  deriving Repr, DecidableEq

/-- The object-spread `{text, mediaIds, replyToTweetId, imageUrl,
...tweetDoc.data()}` handed to `publishTweetWithRefresh`: fields present
on the stored document override the caller-supplied options. -/
def mergeDocIntoOptions (options : ServiceOptions) (doc : TweetDoc) : PublishOptions :=
  { text := doc.text.getD options.text
    mediaIds := match doc.mediaIds with
      | some l => some l
      | none => options.mediaIds
    replyToTweetId := match doc.replyToTweetId with
      | some s => some s
      | none => options.replyToTweetId
    imageUrl := match doc.imageUrl with
      | some s => some s
      | none => options.imageUrl }

/-- The main service method `publishTweet`: validation, project access,
group gate, credential fetch, tweet-document fetch, publish with refresh,
and — on success — the Firestore status write.  An exception thrown by
that status write escapes to the outer catch, which returns the
internal-server-error failure.  The second component is the trace of
external calls performed. -/
def publishTweet (env : Env) (userId : String) (options : ServiceOptions) :
    PublishResult × List Event :=
  if options.tweetId = "" ∨ options.projectId = "" ∨ options.text = "" then
    ({ success := false, message := "Missing required fields",
       errorDetails := some "tweetId, projectId, and text are required" }, [])
  else
    let access := env.projectAccess userId options.projectId
    if ¬ access.isAuthorized then
      ({ success := false, message := jsOrStr access.error "Unauthorized",
         errorDetails := access.error,
         errorCode := match access.statusCode with
           | some c => some (ErrCode.n c)
           | none => none }, [])
    else if strTruthy options.groupId && groupDisabled (env.getGroup (options.groupId.getD "")) then
      ({ success := false, message := "Group is disabled. Tweet will not be published.",
         errorDetails := some "Group is disabled." }, [])
    else
      match getTwitterCredentials env userId with
      | none =>
          ({ success := false, message := "Twitter credentials not found",
             errorDetails := some "Please connect your Twitter account in settings",
             errorCode := some (ErrCode.s "credentials_not_found") }, [])
      | some creds0 =>
        match env.tweetDoc options.projectId options.tweetId with
        | none =>
            ({ success := false, message := "Tweet not found",
               errorDetails := some "The specified tweet does not exist" }, [])
        | some doc =>
          let creds1 : TwitterCredentials := { creds0 with userId := some userId }
          let run := publishTweetWithRefresh env (mergeDocIntoOptions options doc)
                       { creds := creds1, trace := [] }
          if run.fst.success && strTruthy run.fst.twitterTweetId then
            match updateTweetStatus env options.projectId options.tweetId
                (run.fst.twitterTweetId.getD "") options.text run.snd with
            | (Except.ok _, st1) => (run.fst, st1.trace)
            | (Except.error e, st1) =>
                ({ success := false, message := "Internal server error",
                   errorDetails := some e.message }, st1.trace)
          else (run.fst, run.snd.trace)

end TwitterPublishingService

/-- Modelled from the spec: `constants.js` (the `TweetStatus` enumeration)
is not among the sources; the data model of the spec fixes the status
values as draft, scheduled, published and failed, and `updateTweetStatus`
writes the literal string `published`. -/
def TweetStatus.PUBLISHED : String := "published"

/-- One tweet of a thread, in the shape produced by `processThreadTweet`
(the `groupId` of the underlying document, when spread through, is carried
along but never read by the thread publisher). -/
structure ThreadTweet where
  tweetId : String
  text : String
  threadPosition : Option Int := none
  mediaIds : Option (List String) := none
  status : Option String := none
  publishedTweetId : Option String := none
  imageUrl : Option String := none
  groupId : Option String := none
  deriving Repr, DecidableEq

/-- The sort key `a.threadPosition || 0` of the thread sort comparator. -/
def threadPositionKey (t : ThreadTweet) : Int :=
  t.threadPosition.getD 0

/-- Stable insertion of a tweet into an already sorted list, placing it
before the first element with a key not below its own. -/
def insertByPosition (t : ThreadTweet) : List ThreadTweet → List ThreadTweet
  | [] => [t]
  | u :: us =>
    if threadPositionKey u < threadPositionKey t then u :: insertByPosition t us
    else t :: u :: us

/-- The stable ascending sort `[...threadTweets].sort((a, b) => posA -
posB)` of `publishThreadTweets` (JavaScript sort is stable, so insertion
sort computes the same list). -/
def sortByThreadPosition : List ThreadTweet → List ThreadTweet
  | [] => []
  | t :: ts => insertByPosition t (sortByThreadPosition ts)

/-- One entry of the `results` array of `publishThreadTweets`. -/
structure ThreadItemResult where
  tweetId : String
  publishedTweetId : Option String := none
  success : Bool
  message : String
  deriving Repr, DecidableEq

/-- The aggregate result of `publishThreadTweets`. -/
structure ThreadResult where
  success : Bool
  message : String
  results : List ThreadItemResult := []
  errorStatusCode : Option Nat := none
  errorDetails : Option String := none
  deriving Repr, DecidableEq

/-- The publish options built for one thread tweet: the tweet fields are
spread in, and the reply target is set only when the running
`previousTweetId` is truthy. -/
def threadTweetOptions (t : ThreadTweet) (previousTweetId : Option String) : PublishOptions :=
  { text := t.text
    mediaIds := t.mediaIds
    imageUrl := t.imageUrl
    replyToTweetId := jsStrOpt previousTweetId }

namespace TwitterPublishingService

/-- The per-tweet loop of `publishThreadTweets`: already-published tweets
are skipped and their stored provider id becomes the chaining target;
otherwise the tweet is published, recorded, persisted and the chain
advances; the loop breaks on the first failure (a rejected status write
additionally records a generic failure entry). -/
def publishThreadLoop (env : Env) (projectId : String) (tweets : List ThreadTweet)
    (previousTweetId : Option String) (results : List ThreadItemResult) (st : St) :
    List ThreadItemResult × St :=
  match tweets with
  | [] => (results, st)
  | t :: rest =>
    if t.status == some TweetStatus.PUBLISHED then
      publishThreadLoop env projectId rest t.publishedTweetId results st
    else
      let run := publishTweetWithRefresh env (threadTweetOptions t previousTweetId) st
      let results1 := results ++ [{ tweetId := t.tweetId,
                                    publishedTweetId := run.fst.twitterTweetId,
                                    success := run.fst.success,
                                    message := run.fst.message }]
      if run.fst.success && strTruthy run.fst.twitterTweetId then
        match updateTweetStatus env projectId t.tweetId (run.fst.twitterTweetId.getD "")
            t.text run.snd with
        | (Except.ok _, st2) =>
            publishThreadLoop env projectId rest run.fst.twitterTweetId results1 st2
        | (Except.error _, st2) =>
            (results1 ++ [{ tweetId := t.tweetId, success := false,
                            message := "Tweet publishing failed" }], st2)
      else (results1, run.snd)

/-- `publishThreadTweets`: project access and credentials are checked once
for the whole thread, the tweets are sorted by position, the loop runs,
and the aggregate reports full success, an early stop, or outright
failure.  There is no group gate on this path.  The second component is
the trace of external calls performed. -/
def publishThreadTweets (env : Env) (userId projectId : String)
    (threadTweets : List ThreadTweet) : ThreadResult × List Event :=
  let access := env.projectAccess userId projectId
  if ¬ access.isAuthorized then
    ({ success := false,
       message := jsOrStr access.error "Not authorized to access this project",
       errorStatusCode := some (jsOrNat access.statusCode 403),
       errorDetails := access.error }, [])
  else
    match getTwitterCredentials env userId with
    | none =>
        ({ success := false, message := "Twitter credentials not found",
           errorStatusCode := some 404,
           errorDetails := some "No Twitter credentials available for this user" }, [])
    | some creds =>
      if threadTweets.length = 0 then
        ({ success := false, message := "No tweets provided for the thread",
           errorStatusCode := some 400,
           errorDetails := some "Thread must contain at least one tweet" }, [])
      else
        let sortedTweets := sortByThreadPosition threadTweets
        let run := publishThreadLoop env projectId sortedTweets none [] { creds := creds, trace := [] }
        let results := run.fst
        let allSucceeded := results.all (fun r => r.success)
        let publishedCount := (results.filter (fun r => r.success)).length
        let totalCount := sortedTweets.length
        ({ success := allSucceeded
           message :=
             if allSucceeded then s!"Thread published successfully ({publishedCount} tweets)"
             else if publishedCount < totalCount ∧ 0 < publishedCount then
               s!"Thread publishing stopped after {publishedCount}/{totalCount} tweets to maintain thread integrity"
             else "Failed to publish thread"
           results := results }, run.snd.trace)

end TwitterPublishingService

/-- The `processing_info` object of a finalize or status response. -/
structure ProcessingInfo where
  state : String
  checkAfterSecs : Option Nat := none
  deriving Repr, DecidableEq

/-- A response of the provider media STATUS endpoint: a non-ok HTTP
status, or an ok body optionally carrying `processing_info`. -/
inductive StatusResponse where
  | notOk (status : Nat) (statusText : String)
  | ok (processingInfo : Option ProcessingInfo)
  deriving Repr, DecidableEq

/-- How a run of the processing poll ends. -/
inductive PollOutcome where
  /-- The function returned, so the upload resolves with the media id. -/
  | resolved
  /-- The function threw (a failed STATUS HTTP call). -/
  | errored (message : String)
  /-- The modelling fuel ran out while the code would poll again. -/
  | stillPolling
  deriving Repr, DecidableEq

/-- `checkMediaProcessingStatus` from `mediaUpload.js`: return immediately
on state `succeeded`; otherwise wait, fetch STATUS (the `callIdx`-th such
call), throw on a non-ok response, return when the body has no
`processing_info`, and recurse on its `processing_info` otherwise.  The
source recursion has no bound, so the model carries fuel; the second
component counts the STATUS calls performed. -/
def checkMediaProcessingStatus (statusResp : Nat → StatusResponse) (fuel : Nat)
    (processingInfo : ProcessingInfo) (callIdx : Nat) : PollOutcome × Nat :=
  if processingInfo.state = "succeeded" then (PollOutcome.resolved, callIdx)
  else
    match statusResp callIdx with
    | StatusResponse.notOk status statusText =>
        (PollOutcome.errored s!"Failed to check media status: {status} {statusText}", callIdx + 1)
    | StatusResponse.ok none => (PollOutcome.resolved, callIdx + 1)
    | StatusResponse.ok (some info) =>
        match fuel with
        | 0 => (PollOutcome.stillPolling, callIdx + 1)
        | Nat.succ f => checkMediaProcessingStatus statusResp f info (callIdx + 1)

/-- A credentials record, for scenario statements. -/
def mkCreds (userId : Option String) (accessToken : String) (refreshToken : Option String) :
    TwitterCredentials :=
  { userId := userId, oauthCredentials := { accessToken := accessToken, refreshToken := refreshToken } }

/-- The payload posted for one thread tweet without media, given the
chaining target in force when it is published. -/
def threadPayload (t : ThreadTweet) (prev : Option String) : TweetPayload :=
  { text := t.text, mediaIds := jsListOpt t.mediaIds, inReplyToTweetId := jsStrOpt prev }

/-- The external calls of an all-successful run of the thread loop over
`ts`, starting at post index `n` with chaining target `prev`: each tweet
is posted with the running target and then persisted with the id the
provider assigned to it, and the target advances to that id. -/
def okChainEvents (tok pid : String) (ids : Nat → String) :
    Nat → Option String → List ThreadTweet → List Event
  | _, _, [] => []
  | n, prev, t :: ts =>
      Event.post tok (threadPayload t prev) ::
      Event.statusUpdate pid t.tweetId (ids n) t.text ::
      okChainEvents tok pid ids (n + 1) (some (ids n)) ts

/-- The result entries of an all-successful run of the thread loop. -/
def okChainItems (ids : Nat → String) : Nat → List ThreadTweet → List ThreadItemResult
  | _, [] => []
  | n, t :: ts =>
      { tweetId := t.tweetId, publishedTweetId := some (ids n), success := true,
        message := "Tweet published successfully" } :: okChainItems ids (n + 1) ts

/-- The chaining target left after an all-successful run of the thread
loop: the id assigned to the last tweet, or the incoming target when the
list is empty. -/
def okChainPrev (ids : Nat → String) : Nat → Option String → List ThreadTweet → Option String
  | _, prev, [] => prev
  | n, _, _ :: ts => okChainPrev ids (n + 1) (some (ids n)) ts

/-- The chaining target left after skipping a run of already-published
tweets: the stored `publishedTweetId` of the last one. -/
def lastPubPrev : List ThreadTweet → Option String → Option String
  | [], prev => prev
  | t :: ts, _ => lastPubPrev ts t.publishedTweetId

/-!  Concrete environments for witnesses and counterexamples. -/

/-- A benign environment: every external call succeeds. -/
def envBase : Env :=
  { postOutcome := fun _ => HttpPost.ok "tid0"
    mediaOutcome := fun _ => HttpMedia.ok "m1"
    refreshOutcome := fun _ => HttpRefresh.ok (some "newAccess") (some "newRefresh")
    credUpdateErr := fun _ => none
    statusUpdateErr := fun _ => none
    projectAccess := fun _ _ => { isAuthorized := true }
    getCredentials := fun _ => some (mkCreds none "tok" (some "rt"))
    getGroup := fun _ => none
    tweetDoc := fun _ _ => some {} }

/-- Environment where the first post call gets 401 and the retried one
403. -/
def envPost401Then403 : Env := { envBase with
  postOutcome := fun n => if n = 0 then HttpPost.notOk 401 "Unauthorized"
                          else HttpPost.notOk 403 "Forbidden" }

/-- Environment where every media exchange fails with HTTP 401. -/
def envMediaAlways401 : Env := { envBase with
  mediaOutcome := fun _ => HttpMedia.err { status := some 401 } }

/-- Environment where the Firestore status write always rejects. -/
def envStatusWriteFails : Env := { envBase with
  statusUpdateErr := fun _ => some { message := "firestore update failed" } }

/-- Environment where every group record exists and is disabled. -/
def envGroupsDisabled : Env := { envBase with
  getGroup := fun _ => some { isEnabled := some false } }

/-- Environment where the first post call gets 401 and the retried one
succeeds, with distinct media ids per upload. -/
def envPost401ThenOk : Env := { envBase with
  postOutcome := fun n => if n = 0 then HttpPost.notOk 401 "Unauthorized"
                          else HttpPost.ok "tid1"
  mediaOutcome := fun n => if n = 0 then HttpMedia.ok "m0" else HttpMedia.ok "m1" }

/-- Environment where the post call fails with HTTP 500 but an error
message that contains the substring 401, and the refresh endpoint then
rejects. -/
def envPost500With401Message : Env := { envBase with
  postOutcome := fun _ => HttpPost.notOk 500 "Upstream dependency answered 401 unexpectedly"
  refreshOutcome := fun _ => HttpRefresh.notOk 400 "invalid_grant" }


/-- Environment where the post call fails with a plain HTTP 500. -/
def envPost500Plain : Env := { envBase with
  postOutcome := fun _ => HttpPost.notOk 500 "Internal Server Error" }


/-- Environment for the thread scenario where the second post call fails
with HTTP 500 and the stored credentials have no refresh token. -/
def envThreadFailSecond : Env := { envBase with
  postOutcome := fun n => if n = 0 then HttpPost.ok "id0" else HttpPost.notOk 500 "boom"
  getCredentials := fun _ => some (mkCreds none "tok" none) }

/-- Thread fixture tweets. -/
def tweetA : ThreadTweet := { tweetId := "a", text := "ta", threadPosition := some 1 }

def tweetB : ThreadTweet := { tweetId := "b", text := "tb", threadPosition := some 2 }

def tweetC : ThreadTweet := { tweetId := "c", text := "tc", threadPosition := some 3 }

/-- An already-published thread tweet carrying its provider id. -/
def tweetP : ThreadTweet := { tweetId := "p", text := "tp", threadPosition := some 0,
                              status := some "published", publishedTweetId := some "prev0" }

/-- STATUS responses that forever report a processing state of failed. -/
def failPollResp : Nat → StatusResponse :=
  fun _ => StatusResponse.ok (some { state := "failed" })

/-!  Counting lemmas for traces. -/

theorem strTruthy_some (s : String) : strTruthy (some s) = (s != "") := rfl

theorem strTruthy_none : strTruthy none = false := rfl

theorem countPost_append (a b : List Event) : countPost (a ++ b) = countPost a + countPost b := by
  simp [countPost, List.filter_append]

theorem countMedia_append (a b : List Event) : countMedia (a ++ b) = countMedia a + countMedia b := by
  simp [countMedia, List.filter_append]

theorem countRefresh_append (a b : List Event) :
    countRefresh (a ++ b) = countRefresh a + countRefresh b := by
  simp [countRefresh, List.filter_append]

theorem countStatusUpdate_append (a b : List Event) :
    countStatusUpdate (a ++ b) = countStatusUpdate a + countStatusUpdate b := by
  simp [countStatusUpdate, List.filter_append]

theorem countPost_nil : countPost [] = 0 := rfl

theorem countMedia_nil : countMedia [] = 0 := rfl

theorem countRefresh_nil : countRefresh [] = 0 := rfl

theorem countCredUpdate_nil : countCredUpdate [] = 0 := rfl

theorem countStatusUpdate_nil : countStatusUpdate [] = 0 := rfl

theorem countCredUpdate_append (a b : List Event) :
    countCredUpdate (a ++ b) = countCredUpdate a + countCredUpdate b := by
  simp [countCredUpdate, List.filter_append]

theorem countPost_cons (e : Event) (tr : List Event) :
    countPost (e :: tr) = countPost tr + (if Event.isPost e = true then 1 else 0) := by
  by_cases h : Event.isPost e <;> simp [countPost, List.filter_cons, h]

theorem countMedia_cons (e : Event) (tr : List Event) :
    countMedia (e :: tr) = countMedia tr + (if Event.isMediaUpload e = true then 1 else 0) := by
  by_cases h : Event.isMediaUpload e <;> simp [countMedia, List.filter_cons, h]

theorem countRefresh_cons (e : Event) (tr : List Event) :
    countRefresh (e :: tr) = countRefresh tr + (if Event.isRefresh e = true then 1 else 0) := by
  by_cases h : Event.isRefresh e <;> simp [countRefresh, List.filter_cons, h]

theorem countCredUpdate_cons (e : Event) (tr : List Event) :
    countCredUpdate (e :: tr) =
      countCredUpdate tr + (if Event.isCredUpdate e = true then 1 else 0) := by
  by_cases h : Event.isCredUpdate e <;> simp [countCredUpdate, List.filter_cons, h]

theorem countStatusUpdate_cons (e : Event) (tr : List Event) :
    countStatusUpdate (e :: tr) =
      countStatusUpdate tr + (if Event.isStatusUpdate e = true then 1 else 0) := by
  by_cases h : Event.isStatusUpdate e <;> simp [countStatusUpdate, List.filter_cons, h]

namespace TwitterPublishingService

/-- Step lemma: a media upload whose provider exchange succeeds returns
the media id at once, whatever the retry count. -/
theorem uploadMedia_ok (env : Env) (imageUrl : String) (retryCount : Nat) (st : St) (mid : String)
    (h : env.mediaOutcome (countMedia st.trace) = HttpMedia.ok mid) :
    uploadMedia env imageUrl retryCount st =
      (Except.ok { media_id_string := mid },
       { st with trace := st.trace ++
           [Event.mediaUpload st.creds.oauthCredentials.accessToken imageUrl] }) := by
  unfold uploadMedia
  simp [uploadMediaToTwitter, h]

/-- Step lemma: with the upload condition false (no image URL or no access
token), `prepareTweetPayload` just shapes the payload and performs no
call. -/
theorem prepareTweetPayload_noUpload (env : Env) (options : PublishOptions) (st : St)
    (hcond : (strTruthy options.imageUrl && strTruthy options.accessToken) = false) :
    prepareTweetPayload env options st =
      (Except.ok { text := options.text, mediaIds := jsListOpt options.mediaIds,
                   inReplyToTweetId := jsStrOpt options.replyToTweetId }, st) := by
  simp [prepareTweetPayload, hcond]

/-- Step lemma: with the upload condition true and a successful provider
media exchange yielding a truthy id, `prepareTweetPayload` performs one
media-upload call under the in-memory access token and uses the id as the
sole media id. -/
theorem prepareTweetPayload_upload_ok (env : Env) (options : PublishOptions) (st : St)
    (mid : String)
    (hcond : (strTruthy options.imageUrl && strTruthy options.accessToken) = true)
    (hm : env.mediaOutcome (countMedia st.trace) = HttpMedia.ok mid)
    (hmid : mid ≠ "") :
    prepareTweetPayload env options st =
      (Except.ok { text := options.text, mediaIds := some [mid],
                   inReplyToTweetId := jsStrOpt options.replyToTweetId },
       { st with trace := st.trace ++
           [Event.mediaUpload st.creds.oauthCredentials.accessToken (options.imageUrl.getD "")] }) := by
  rw [prepareTweetPayload, uploadMedia_ok env (options.imageUrl.getD "") 0 st mid hm]
  simp [hcond, hmid, jsListOpt]

/-- Step lemma: with no image URL and a successful post call, the publish
succeeds on the first attempt, and the only external call made is that
post with the current in-memory access token. -/
theorem publishTweetWithRefresh_post_ok (env : Env) (options : PublishOptions) (st : St)
    (id : String)
    (himg : options.imageUrl = none)
    (hpost : env.postOutcome (countPost st.trace) = HttpPost.ok id) :
    publishTweetWithRefresh env options st =
      ({ success := true, twitterTweetId := some id, publishedTweetId := some id,
         message := "Tweet published successfully" },
       { creds := st.creds,
         trace := st.trace ++ [Event.post st.creds.oauthCredentials.accessToken
           { text := options.text, mediaIds := jsListOpt options.mediaIds,
             inReplyToTweetId := jsStrOpt options.replyToTweetId }] }) := by
  simp [publishTweetWithRefresh, prepareTweetPayload, utils.publishTweet, himg, strTruthy, hpost]

/-- Step lemma: with no image URL, no refresh token in memory, and a
failing post call, the publish fails with the `api_error` result and the
only external call made is that post. -/
theorem publishTweetWithRefresh_post_err_noRefresh (env : Env) (options : PublishOptions)
    (st : St) (status : Nat) (msg : String)
    (himg : options.imageUrl = none)
    (hrt : st.creds.oauthCredentials.refreshToken = none)
    (hpost : env.postOutcome (countPost st.trace) = HttpPost.notOk status msg) :
    publishTweetWithRefresh env options st =
      (apiErrorResult { code := some status, message := msg },
       { creds := st.creds,
         trace := st.trace ++ [Event.post st.creds.oauthCredentials.accessToken
           { text := options.text, mediaIds := jsListOpt options.mediaIds,
             inReplyToTweetId := jsStrOpt options.replyToTweetId }] }) := by
  simp [publishTweetWithRefresh, prepareTweetPayload, utils.publishTweet, himg, strTruthy, hpost,
        publishTweetWithRefreshOnError, hrt]

end TwitterPublishingService

theorem jsStrOpt_idem (o : Option String) : jsStrOpt (jsStrOpt o) = jsStrOpt o := by
  cases o with
  | none => rfl
  | some s =>
    by_cases h : s = ""
    · simp [jsStrOpt, h]
    · simp [jsStrOpt, h]

theorem countPost_okChainEvents (tok pid : String) (ids : Nat → String) (n : Nat)
    (prev : Option String) (ts : List ThreadTweet) :
    countPost (okChainEvents tok pid ids n prev ts) = ts.length := by
  induction ts generalizing n prev with
  | nil => rfl
  | cons t ts ih => simp [okChainEvents, countPost, Event.isPost, Event.isStatusUpdate] at ih ⊢
                    exact ih (n + 1) (some (ids n))

theorem countStatusUpdate_okChainEvents (tok pid : String) (ids : Nat → String) (n : Nat)
    (prev : Option String) (ts : List ThreadTweet) :
    countStatusUpdate (okChainEvents tok pid ids n prev ts) = ts.length := by
  induction ts generalizing n prev with
  | nil => rfl
  | cons t ts ih => simp [okChainEvents, countStatusUpdate, Event.isPost, Event.isStatusUpdate] at ih ⊢
                    exact ih (n + 1) (some (ids n))

theorem okChainItems_all_success (ids : Nat → String) (n : Nat) (ts : List ThreadTweet) :
    (okChainItems ids n ts).all (fun r => r.success) = true := by
  induction ts generalizing n with
  | nil => rfl
  | cons t ts ih => simp [okChainItems] at ih ⊢
                    exact ih (n + 1)

theorem okChainItems_filter_success (ids : Nat → String) (n : Nat) (ts : List ThreadTweet) :
    ((okChainItems ids n ts).filter (fun r => r.success)).length = ts.length := by
  induction ts generalizing n with
  | nil => rfl
  | cons t ts ih => simp [okChainItems] at ih ⊢
                    exact ih (n + 1)

theorem okChainItems_length (ids : Nat → String) (n : Nat) (ts : List ThreadTweet) :
    (okChainItems ids n ts).length = ts.length := by
  induction ts generalizing n with
  | nil => rfl
  | cons t ts ih => simp [okChainItems] at ih ⊢
                    exact ih (n + 1)

/-- An already key-sorted list is a fixed point of the stable sort. -/
theorem sortByThreadPosition_sorted_id (ts : List ThreadTweet)
    (h : List.Pairwise (fun a b => threadPositionKey a ≤ threadPositionKey b) ts) :
    sortByThreadPosition ts = ts := by
  induction ts with
  | nil => rfl
  | cons t ts ih =>
    obtain ⟨hhead, htail⟩ := List.pairwise_cons.mp h
    rw [sortByThreadPosition, ih htail]
    cases ts with
    | nil => rfl
    | cons u us =>
      have hle : threadPositionKey t ≤ threadPositionKey u :=
        hhead u (List.mem_cons_self u us)
      rw [insertByPosition, if_neg (by omega)]

namespace TwitterPublishingService

/-- Unfolding equation of the loop for an empty list. -/
theorem publishThreadLoop_nil (env : Env) (pid : String) (prev : Option String)
    (acc : List ThreadItemResult) (st : St) :
    publishThreadLoop env pid [] prev acc st = (acc, st) := rfl

/-- Unfolding equation of the loop for a head tweet. -/
theorem publishThreadLoop_cons (env : Env) (pid : String) (t : ThreadTweet)
    (rest : List ThreadTweet) (prev : Option String) (acc : List ThreadItemResult) (st : St) :
    publishThreadLoop env pid (t :: rest) prev acc st =
      if t.status == some TweetStatus.PUBLISHED then
        publishThreadLoop env pid rest t.publishedTweetId acc st
      else
        let run := publishTweetWithRefresh env (threadTweetOptions t prev) st
        let results1 := acc ++ [{ tweetId := t.tweetId,
                                  publishedTweetId := run.fst.twitterTweetId,
                                  success := run.fst.success,
                                  message := run.fst.message }]
        if run.fst.success && strTruthy run.fst.twitterTweetId then
          match updateTweetStatus env pid t.tweetId (run.fst.twitterTweetId.getD "")
              t.text run.snd with
          | (Except.ok _, st2) =>
              publishThreadLoop env pid rest run.fst.twitterTweetId results1 st2
          | (Except.error _, st2) =>
              (results1 ++ [{ tweetId := t.tweetId, success := false,
                              message := "Tweet publishing failed" }], st2)
        else (results1, run.snd) := rfl

/-- Step lemma: a status write whose Firestore update goes through only
appends its event. -/
theorem updateTweetStatus_ok (env : Env) (pid tid pubId text : String) (st : St)
    (h : env.statusUpdateErr (countStatusUpdate st.trace) = none) :
    updateTweetStatus env pid tid pubId text st =
      (Except.ok (), { st with trace := st.trace ++ [Event.statusUpdate pid tid pubId text] }) := by
  simp [updateTweetStatus, h]

/-- Skip lemma: a run of already-published tweets at the head of the loop
produces no external calls and no result entries; it only moves the
chaining target to the stored id of its last element. -/
theorem publishThreadLoop_skip (env : Env) (pid : String) (pub l : List ThreadTweet)
    (prev : Option String) (acc : List ThreadItemResult) (st : St)
    (h : ∀ t ∈ pub, t.status = some TweetStatus.PUBLISHED) :
    publishThreadLoop env pid (pub ++ l) prev acc st =
      publishThreadLoop env pid l (lastPubPrev pub prev) acc st := by
  induction pub generalizing prev with
  | nil => rfl
  | cons t pub ih =>
    have ht : t.status = some TweetStatus.PUBLISHED := h t (List.mem_cons_self t pub)
    rw [List.cons_append, publishThreadLoop_cons, if_pos (by simp [ht]), lastPubPrev]
    exact ih t.publishedTweetId (fun u hu => h u (List.mem_cons_of_mem t hu))

/-- Chain lemma: a run of not-yet-published, media-free tweets whose post
calls all succeed and whose status writes all go through publishes each
tweet once in order, persists it, and chains each post to the id assigned
to its predecessor. -/
theorem publishThreadLoop_ok_chain (env : Env) (pid : String) (ts l : List ThreadTweet)
    (prev : Option String) (acc : List ThreadItemResult) (st : St) (ids : Nat → String)
    (hunpub : ∀ t ∈ ts, ¬ t.status = some TweetStatus.PUBLISHED)
    (hmedia : ∀ t ∈ ts, t.imageUrl = none)
    (hok : ∀ i, i < ts.length →
      env.postOutcome (countPost st.trace + i) = HttpPost.ok (ids (countPost st.trace + i)))
    (hids : ∀ n, ids n ≠ "")
    (hsu : ∀ i, i < ts.length → env.statusUpdateErr (countStatusUpdate st.trace + i) = none) :
    publishThreadLoop env pid (ts ++ l) prev acc st =
      publishThreadLoop env pid l (okChainPrev ids (countPost st.trace) prev ts)
        (acc ++ okChainItems ids (countPost st.trace) ts)
        { creds := st.creds
          trace := st.trace ++ okChainEvents st.creds.oauthCredentials.accessToken pid ids
            (countPost st.trace) prev ts } := by
  induction ts generalizing prev acc st with
  | nil => simp [okChainPrev, okChainItems, okChainEvents]
  | cons t ts ih =>
    have ht : ¬ t.status = some TweetStatus.PUBLISHED := hunpub t (List.mem_cons_self t ts)
    have htimg : t.imageUrl = none := (hmedia t (List.mem_cons_self t ts))
    have hrun := publishTweetWithRefresh_post_ok env (threadTweetOptions t prev) st
      (ids (countPost st.trace)) (by simp [threadTweetOptions, htimg])
      (by simpa using hok 0 (by simp))
    rw [List.cons_append, publishThreadLoop_cons, if_neg (by simp [ht]), hrun]
    simp only [threadTweetOptions]
    have hidstru : strTruthy (some (ids (countPost st.trace))) = true := by
      simp [strTruthy, hids (countPost st.trace)]
    rw [if_pos (by simp [hidstru])]
    simp only [Option.getD_some]
    rw [updateTweetStatus_ok env pid t.tweetId (ids (countPost st.trace)) t.text _
      (by simpa [countStatusUpdate_append, countStatusUpdate, Event.isStatusUpdate]
            using hsu 0 (by simp))]
    have hcp2 : countPost ((st.trace ++
        [Event.post st.creds.oauthCredentials.accessToken
          { text := t.text, mediaIds := jsListOpt t.mediaIds,
            inReplyToTweetId := jsStrOpt (jsStrOpt prev) }]) ++
        [Event.statusUpdate pid t.tweetId (ids (countPost st.trace)) t.text]) =
        countPost st.trace + 1 := by
      simp [countPost_append, countPost, Event.isPost, Event.isStatusUpdate]
    have hcs2 : countStatusUpdate ((st.trace ++
        [Event.post st.creds.oauthCredentials.accessToken
          { text := t.text, mediaIds := jsListOpt t.mediaIds,
            inReplyToTweetId := jsStrOpt (jsStrOpt prev) }]) ++
        [Event.statusUpdate pid t.tweetId (ids (countPost st.trace)) t.text]) =
        countStatusUpdate st.trace + 1 := by
      simp [countStatusUpdate_append, countStatusUpdate, Event.isPost, Event.isStatusUpdate]
    have ihx := ih (some (ids (countPost st.trace)))
      (acc ++ [{ tweetId := t.tweetId, publishedTweetId := some (ids (countPost st.trace)),
                 success := true, message := "Tweet published successfully" }])
      { creds := st.creds
        trace := st.trace ++
          [Event.post st.creds.oauthCredentials.accessToken
              { text := t.text, mediaIds := jsListOpt t.mediaIds,
                inReplyToTweetId := jsStrOpt (jsStrOpt prev) }] ++
          [Event.statusUpdate pid t.tweetId (ids (countPost st.trace)) t.text] }
      (fun u hu => hunpub u (List.mem_cons_of_mem t hu))
      (fun u hu => hmedia u (List.mem_cons_of_mem t hu))
      (by intro i hi
          have hn : countPost (st.trace ++
              [Event.post st.creds.oauthCredentials.accessToken
                  { text := t.text, mediaIds := jsListOpt t.mediaIds,
                    inReplyToTweetId := jsStrOpt (jsStrOpt prev) }] ++
              [Event.statusUpdate pid t.tweetId (ids (countPost st.trace)) t.text]) + i =
              countPost st.trace + (i + 1) := by rw [hcp2]; omega
          rw [hn]
          exact hok (i + 1) (by simp only [List.length_cons]; omega))
      (by intro i hi
          have hn : countStatusUpdate (st.trace ++
              [Event.post st.creds.oauthCredentials.accessToken
                  { text := t.text, mediaIds := jsListOpt t.mediaIds,
                    inReplyToTweetId := jsStrOpt (jsStrOpt prev) }] ++
              [Event.statusUpdate pid t.tweetId (ids (countPost st.trace)) t.text]) + i =
              countStatusUpdate st.trace + (i + 1) := by rw [hcs2]; omega
          rw [hn]
          exact hsu (i + 1) (by simp only [List.length_cons]; omega))
    dsimp only
    rw [ihx]
    simp [okChainPrev, okChainItems, okChainEvents, threadPayload, jsStrOpt_idem,
      countPost_append, countPost, Event.isPost, Event.isStatusUpdate]

end TwitterPublishingService

/-!  Claim theorems, witnesses and counterexamples. -/

/-- Claim C1: for a single-post publish whose post call fails with a
401-class status while the credentials hold a refresh token (the scenario
further fixes the frame the claim presumes: the refresh exchange yields a
complete token pair, the token write goes through, and the media
exchanges — the media path carries its own independent retry counter,
settled by claim C2 — all succeed), `publishTweetWithRefresh` performs
exactly one token-refresh attempt and exactly one retried post call; when
that retried post also fails, no further refresh is attempted and the
result is the terminal failure with error code `token_expired` and the
message `Twitter authentication failed`. -/
theorem C1_publish_single_refresh_retry_terminal (env : Env) (options : PublishOptions)
    (uid tok rtok na nr msg1 msg2 : String) (status2 : Nat) (mids : Nat → String)
    (huid : uid ≠ "") (htok : tok ≠ "") (hrtok : rtok ≠ "") (hna : na ≠ "") (hnr : nr ≠ "")
    (hmedia : ∀ n, env.mediaOutcome n = HttpMedia.ok (mids n))
    (hmids : ∀ n, mids n ≠ "")
    (hpost0 : env.postOutcome 0 = HttpPost.notOk 401 msg1)
    (hrefresh : env.refreshOutcome 0 = HttpRefresh.ok (some na) (some nr))
    (hcred : env.credUpdateErr 0 = none)
    (hpost1 : env.postOutcome 1 = HttpPost.notOk status2 msg2) :
    let r := TwitterPublishingService.publishTweetWithRefresh env options
      { creds := mkCreds (some uid) tok (some rtok), trace := [] }
    countRefresh r.snd.trace = 1 ∧ countPost r.snd.trace = 2 ∧
    r.fst.success = false ∧ r.fst.message = "Twitter authentication failed" ∧
    r.fst.errorCode = some (ErrCode.s "token_expired") := by
  intro r
  by_cases himg : strTruthy options.imageUrl = true
  · simp only [r]
    simp [TwitterPublishingService.publishTweetWithRefresh,
      TwitterPublishingService.publishTweetWithRefreshOnError,
      TwitterPublishingService.prepareTweetPayload_noUpload,
      TwitterPublishingService.prepareTweetPayload_upload_ok,
      TwitterPublishingService.updateTwitterCredentials,
      utils.publishTweet, utils.refreshTwitterAccessToken,
      mkCreds, strTruthy_some, strTruthy_none, isAuthError, himg, hpost0, hrefresh, hcred,
      hpost1, hmedia, hmids, huid, htok, hrtok, hna, hnr, tokenExpiredResult,
      countPost, countRefresh, countMedia, countCredUpdate,
      Event.isPost, Event.isRefresh, Event.isMediaUpload, Event.isCredUpdate, List.filter,
      jsStrOpt, jsListOpt]
  · simp only [r]
    simp [TwitterPublishingService.publishTweetWithRefresh,
      TwitterPublishingService.publishTweetWithRefreshOnError,
      TwitterPublishingService.prepareTweetPayload_noUpload,
      TwitterPublishingService.prepareTweetPayload_upload_ok,
      TwitterPublishingService.updateTwitterCredentials,
      utils.publishTweet, utils.refreshTwitterAccessToken,
      mkCreds, strTruthy_some, strTruthy_none, isAuthError, himg, hpost0, hrefresh, hcred,
      hpost1, hmedia, hmids, huid, htok, hrtok, hna, hnr, tokenExpiredResult,
      countPost, countRefresh, countMedia, countCredUpdate,
      Event.isPost, Event.isRefresh, Event.isMediaUpload, Event.isCredUpdate, List.filter,
      jsStrOpt, jsListOpt]

/-- Witness for claim C1 at a concrete environment. -/
theorem C1_publish_single_refresh_retry_terminal_witness :
    let r := TwitterPublishingService.publishTweetWithRefresh envPost401Then403
      { text := "hello" } { creds := mkCreds (some "user1") "tokA" (some "rtA"), trace := [] }
    countRefresh r.snd.trace = 1 ∧ countPost r.snd.trace = 2 ∧
    r.fst.success = false ∧ r.fst.message = "Twitter authentication failed" ∧
    r.fst.errorCode = some (ErrCode.s "token_expired") := by
  have hne1 : ("user1" : String) ≠ "" := by decide
  have hne2 : ("tokA" : String) ≠ "" := by decide
  have hne3 : ("rtA" : String) ≠ "" := by decide
  have hne4 : ("newAccess" : String) ≠ "" := by decide
  have hne5 : ("newRefresh" : String) ≠ "" := by decide
  have hne6 : ("m1" : String) ≠ "" := by decide
  have hmain := C1_publish_single_refresh_retry_terminal envPost401Then403 { text := "hello" }
    "user1" "tokA" "rtA" "newAccess" "newRefresh" "Unauthorized" "Forbidden" 403
    (fun _ => "m1") hne1 hne2 hne3 hne4 hne5 (fun _ => rfl) (fun _ => hne6) rfl rfl rfl rfl
  exact hmain

/-- Step lemma: one auth-failing upload attempt with budget left performs
the upload, the refresh and the token write, updates the in-memory pair,
and recurses with an incremented retry count; the recursive result —
success or failure — propagates unchanged, because the source returns the
recursive promise without awaiting it inside the try block. -/
theorem uploadMedia_auth_retry (env : Env) (imageUrl : String) (retryCount : Nat) (st : St)
    (e : JsError) (na nr uid : String)
    (hm : env.mediaOutcome (countMedia st.trace) = HttpMedia.err e)
    (hauth : isAuthError e = true)
    (hrt : strTruthy st.creds.oauthCredentials.refreshToken = true)
    (hlt : retryCount < 2)
    (hrefresh : env.refreshOutcome (countRefresh st.trace) = HttpRefresh.ok (some na) (some nr))
    (hna : na ≠ "") (hnr : nr ≠ "")
    (huid : st.creds.userId = some uid) (huidne : uid ≠ "")
    (hcred : env.credUpdateErr (countCredUpdate st.trace) = none) :
    TwitterPublishingService.uploadMedia env imageUrl retryCount st =
      TwitterPublishingService.uploadMedia env imageUrl (retryCount + 1)
        { creds := { st.creds with
            oauthCredentials := { accessToken := na, refreshToken := some nr } }
          trace := ((st.trace ++
            [Event.mediaUpload st.creds.oauthCredentials.accessToken imageUrl]) ++
            [Event.refresh (st.creds.oauthCredentials.refreshToken.getD "")]) ++
            [Event.credUpdate uid na nr] } := by
  conv =>
    lhs
    rw [TwitterPublishingService.uploadMedia]
  simp [uploadMediaToTwitter, utils.refreshTwitterAccessToken,
    TwitterPublishingService.updateTwitterCredentials,
    hm, hauth, hrt, hlt, hrefresh, hna, hnr, huid, huidne, hcred,
    strTruthy_some, strTruthy_none,
    countRefresh_append, countRefresh_cons, countRefresh_nil,
    countCredUpdate_append, countCredUpdate_cons, countCredUpdate_nil,
    Event.isRefresh, Event.isCredUpdate, Event.isMediaUpload]

/-- Step lemma: a failing upload attempt without budget (or without the
auth shape) throws the generic upload error after the one provider
exchange. -/
theorem uploadMedia_err_noRetry (env : Env) (imageUrl : String) (retryCount : Nat) (st : St)
    (e : JsError)
    (hm : env.mediaOutcome (countMedia st.trace) = HttpMedia.err e)
    (hcond : ¬ (retryCount < 2 ∧
      (isAuthError e && strTruthy st.creds.oauthCredentials.refreshToken) = true)) :
    TwitterPublishingService.uploadMedia env imageUrl retryCount st =
      (Except.error { message := "Error uploading media" },
       { st with trace := st.trace ++
           [Event.mediaUpload st.creds.oauthCredentials.accessToken imageUrl] }) := by
  conv =>
    lhs
    rw [TwitterPublishingService.uploadMedia]
  simp only [uploadMediaToTwitter, hm]
  rw [dif_neg hcond]

/-- Counterexample to claim C2 as stated: with every media exchange
failing with HTTP 401 and token refreshes succeeding, one `uploadMedia`
call (invoked with `retryCount = 0`, as `prepareTweetPayload` does)
performs three upload attempts and two refresh-then-retry cycles — more
than the claimed cap of two attempts and one cycle. -/
theorem C2_uploadMedia_cap_counterexample :
    let r := TwitterPublishingService.uploadMedia envMediaAlways401 "http://img" 0
      { creds := mkCreds (some "user1") "tokA" (some "rtA"), trace := [] }
    countMedia r.snd.trace = 3 ∧ countRefresh r.snd.trace = 2 := by
  intro r
  simp only [r]
  rw [uploadMedia_auth_retry envMediaAlways401 "http://img" 0 _ { status := some 401 }
    "newAccess" "newRefresh" "user1" rfl (by decide) (by decide) (by omega) rfl
    (by decide) (by decide) rfl (by decide) rfl]
  rw [uploadMedia_auth_retry envMediaAlways401 "http://img" 1 _ { status := some 401 }
    "newAccess" "newRefresh" "user1" rfl (by decide) (by decide) (by omega) rfl
    (by decide) (by decide) rfl (by decide) rfl]
  rw [uploadMedia_err_noRetry envMediaAlways401 "http://img" 2 _ { status := some 401 }
    rfl (fun h => absurd h.1 (by omega))]
  exact ⟨rfl, rfl⟩

/-- Amended claim C2: the media-upload auth-retry path is capped at three
upload attempts in total — the guard is `retryCount < 2` with
`retryCount` starting at 0, so up to two refresh-then-retry cycles occur
per media-upload operation; once the budget is exhausted a further
failure is not followed by another refresh-and-retry cycle and the call
fails with the generic upload error (the un-awaited recursive retry lets
the final rejection bypass the refresh catch). -/
theorem C2_uploadMedia_auth_retry_cap_amended (env : Env) (imageUrl uid tok rt : String)
    (nas nrs : Nat → String)
    (huid : uid ≠ "") (hrt : rt ≠ "")
    (hnas : ∀ n, nas n ≠ "") (hnrs : ∀ n, nrs n ≠ "")
    (e0 e1 e2 : JsError)
    (hm0 : env.mediaOutcome 0 = HttpMedia.err e0) (ha0 : isAuthError e0 = true)
    (hm1 : env.mediaOutcome 1 = HttpMedia.err e1) (ha1 : isAuthError e1 = true)
    (hm2 : env.mediaOutcome 2 = HttpMedia.err e2)
    (hrefresh : ∀ n, env.refreshOutcome n = HttpRefresh.ok (some (nas n)) (some (nrs n)))
    (hcred : ∀ n, env.credUpdateErr n = none) :
    let r := TwitterPublishingService.uploadMedia env imageUrl 0
      { creds := mkCreds (some uid) tok (some rt), trace := [] }
    countMedia r.snd.trace = 3 ∧ countRefresh r.snd.trace = 2 ∧
    r.fst = Except.error { message := "Error uploading media" } := by
  intro r
  simp only [r]
  rw [uploadMedia_auth_retry env imageUrl 0 _ e0 (nas 0) (nrs 0) uid
    (by simpa [countMedia] using hm0) ha0 (by simp [mkCreds, strTruthy_some, hrt]) (by omega)
    (by simpa [countRefresh] using hrefresh 0) (hnas 0) (hnrs 0) (by simp [mkCreds]) huid
    (by simpa [countCredUpdate] using hcred 0)]
  rw [uploadMedia_auth_retry env imageUrl 1 _ e1 (nas 1) (nrs 1) uid
    (by simpa [countMedia, Event.isMediaUpload, Event.isRefresh, Event.isCredUpdate, List.filter]
      using hm1)
    ha1 (by simp [mkCreds, strTruthy_some, hnrs 0])
    (by omega)
    (by simpa [countRefresh, Event.isMediaUpload, Event.isRefresh, Event.isCredUpdate, List.filter]
      using hrefresh 1)
    (hnas 1) (hnrs 1) (by simp [mkCreds]) huid
    (by simpa [countCredUpdate, Event.isMediaUpload, Event.isRefresh, Event.isCredUpdate,
      List.filter] using hcred 1)]
  rw [uploadMedia_err_noRetry env imageUrl 2 _ e2
    (by simpa [countMedia, Event.isMediaUpload, Event.isRefresh, Event.isCredUpdate, List.filter]
      using hm2)
    (by omega)]
  simp [countMedia, countRefresh, Event.isMediaUpload, Event.isRefresh, Event.isCredUpdate,
    Event.isPost, List.filter]

/-- Witness for the amended claim C2 at a concrete environment. -/
theorem C2_uploadMedia_auth_retry_cap_amended_witness :
    let r := TwitterPublishingService.uploadMedia envMediaAlways401 "http://img" 0
      { creds := mkCreds (some "user1") "tokA" (some "rtA"), trace := [] }
    countMedia r.snd.trace = 3 ∧ countRefresh r.snd.trace = 2 ∧
    r.fst = Except.error { message := "Error uploading media" } := by
  have h1 : ("user1" : String) ≠ "" := by decide
  have h2 : ("rtA" : String) ≠ "" := by decide
  have h3 : ("newAccess" : String) ≠ "" := by decide
  have h4 : ("newRefresh" : String) ≠ "" := by decide
  have ha : isAuthError { status := some 401 } = true := by decide
  have hmain := C2_uploadMedia_auth_retry_cap_amended envMediaAlways401 "http://img"
    "user1" "tokA" "rtA" (fun _ => "newAccess") (fun _ => "newRefresh") h1 h2
    (fun _ => h3) (fun _ => h4)
    { status := some 401 } { status := some 401 } { status := some 401 }
    rfl ha rfl ha rfl (fun _ => rfl) (fun _ => rfl)
  exact hmain

/-- Counterexample to claim C9 as stated: a post call failing with HTTP
500 — a non-401 status — whose error message happens to contain the
substring 401 is treated as an auth error by the duck-typed check, and a
token refresh is attempted (here the refresh then fails, so the result is
even reported as `token_expired`, not `api_error`). -/
theorem C9_non401_message_triggers_refresh_counterexample :
    let r := TwitterPublishingService.publishTweetWithRefresh envPost500With401Message
      { text := "hello" } { creds := mkCreds (some "user1") "tokA" (some "rtA"), trace := [] }
    envPost500With401Message.postOutcome 0 =
      HttpPost.notOk 500 "Upstream dependency answered 401 unexpectedly" ∧
    countRefresh r.snd.trace = 1 ∧
    r.fst.errorCode = some (ErrCode.s "token_expired") := by
  exact ⟨rfl, rfl, rfl⟩

/-- Amended claim C9: for every post call that fails with a non-401
status whose error message does not contain the substring 401, no token
refresh is attempted and the failure is reported immediately as an
unsuccessful result with code `api_error` and without any retried post
call; when the message does contain 401, the duck-typed check treats the
failure as 401-class and a refresh is attempted. -/
theorem C9_non401_no_refresh_amended (env : Env) (options : PublishOptions)
    (creds : TwitterCredentials) (status : Nat) (msg : String)
    (himg : options.imageUrl = none)
    (hstatus : status ≠ 401)
    (hmsg : jsIncludes msg "401" = false)
    (hpost : env.postOutcome 0 = HttpPost.notOk status msg) :
    let r := TwitterPublishingService.publishTweetWithRefresh env options
      { creds := creds, trace := [] }
    countRefresh r.snd.trace = 0 ∧ countPost r.snd.trace = 1 ∧
    r.fst.success = false ∧ r.fst.message = "Failed to publish tweet" ∧
    r.fst.errorCode = some (ErrCode.s "api_error") := by
  intro r
  simp only [r]
  simp [TwitterPublishingService.publishTweetWithRefresh,
    TwitterPublishingService.publishTweetWithRefreshOnError,
    TwitterPublishingService.prepareTweetPayload_noUpload,
    utils.publishTweet, apiErrorResult,
    strTruthy_some, strTruthy_none, isAuthError, himg, hstatus, hmsg, hpost,
    countPost, countRefresh, Event.isPost, Event.isRefresh, List.filter]

/-- Witness for the amended claim C9 at a concrete environment. -/
theorem C9_non401_no_refresh_amended_witness :
    let r := TwitterPublishingService.publishTweetWithRefresh envPost500Plain
      { text := "hello" } { creds := mkCreds (some "user1") "tokA" (some "rtA"), trace := [] }
    countRefresh r.snd.trace = 0 ∧ countPost r.snd.trace = 1 ∧
    r.fst.success = false ∧ r.fst.message = "Failed to publish tweet" ∧
    r.fst.errorCode = some (ErrCode.s "api_error") := by
  have hmain := C9_non401_no_refresh_amended envPost500Plain { text := "hello" }
    (mkCreds (some "user1") "tokA" (some "rtA")) 500 "Internal Server Error"
    rfl (by decide) (by decide) rfl
  exact hmain

/-- Claim C10: after a 401-triggered refresh succeeds, every failure of
the retried attempt — persisting the refreshed pair to the store, the
media re-upload (the representative non-auth media failure), or a non-401
status on the retried post call — lands in the same inner catch and is
reported as success = false, message `Twitter authentication failed` and
error code `token_expired`, with details instructing reconnection. -/
theorem C10_retry_failures_token_expired (env : Env) (options : PublishOptions)
    (uid tok rtok na nr msg1 : String)
    (huid : uid ≠ "") (htok : tok ≠ "") (hrtok : rtok ≠ "") (hna : na ≠ "") (hnr : nr ≠ "")
    (hpost0 : env.postOutcome 0 = HttpPost.notOk 401 msg1)
    (hrefresh : env.refreshOutcome 0 = HttpRefresh.ok (some na) (some nr))
    (hcase :
      (options.imageUrl = none ∧ (∃ e, env.credUpdateErr 0 = some e)) ∨
      (options.imageUrl = none ∧ env.credUpdateErr 0 = none ∧
        ∃ s2 m2, env.postOutcome 1 = HttpPost.notOk s2 m2) ∨
      ((∃ u, options.imageUrl = some u ∧ u ≠ "") ∧ env.credUpdateErr 0 = none ∧
        (∃ m0, env.mediaOutcome 0 = HttpMedia.ok m0 ∧ m0 ≠ "") ∧
        (∃ e1, env.mediaOutcome 1 = HttpMedia.err e1 ∧ isAuthError e1 = false))) :
    let r := TwitterPublishingService.publishTweetWithRefresh env options
      { creds := mkCreds (some uid) tok (some rtok), trace := [] }
    r.fst.success = false ∧ r.fst.message = "Twitter authentication failed" ∧
    r.fst.errorCode = some (ErrCode.s "token_expired") ∧
    r.fst.errorDetails =
      some "Your Twitter connection has expired. Please reconnect your Twitter account." := by
  intro r
  rcases hcase with ⟨himg, e, hcred⟩ | ⟨himg, hcred, s2, m2, hpost1⟩ |
    ⟨⟨u, himg, hu⟩, hcred, ⟨m0, hm0, hm0ne⟩, ⟨e1, hm1, he1⟩⟩
  · simp only [r]
    simp [TwitterPublishingService.publishTweetWithRefresh,
      TwitterPublishingService.publishTweetWithRefreshOnError,
      TwitterPublishingService.prepareTweetPayload_noUpload,
      TwitterPublishingService.updateTwitterCredentials,
      utils.publishTweet, utils.refreshTwitterAccessToken,
      mkCreds, strTruthy_some, strTruthy_none, isAuthError, himg, hpost0, hrefresh, hcred,
      huid, htok, hrtok, hna, hnr, tokenExpiredResult,
      countPost, countRefresh, countCredUpdate, Event.isPost, Event.isRefresh,
      Event.isCredUpdate, List.filter]
  · simp only [r]
    simp [TwitterPublishingService.publishTweetWithRefresh,
      TwitterPublishingService.publishTweetWithRefreshOnError,
      TwitterPublishingService.prepareTweetPayload_noUpload,
      TwitterPublishingService.updateTwitterCredentials,
      utils.publishTweet, utils.refreshTwitterAccessToken,
      mkCreds, strTruthy_some, strTruthy_none, isAuthError, himg, hpost0, hrefresh, hcred,
      hpost1, huid, htok, hrtok, hna, hnr, tokenExpiredResult,
      countPost, countRefresh, countCredUpdate, Event.isPost, Event.isRefresh,
      Event.isCredUpdate, List.filter]
  · simp only [r]
    have herr := uploadMedia_err_noRetry env u 0
      { creds := { userId := some uid,
                   oauthCredentials := { accessToken := tok, refreshToken := some rtok } }
        trace := [Event.mediaUpload tok u,
                  Event.post tok { text := options.text, mediaIds := jsListOpt (some [m0]),
                                   inReplyToTweetId := jsStrOpt options.replyToTweetId },
                  Event.refresh rtok, Event.credUpdate uid na nr] } e1
      (by simpa [countMedia, Event.isMediaUpload, Event.isPost, Event.isRefresh,
        Event.isCredUpdate, List.filter] using hm1)
      (by simp [he1])
    simp [TwitterPublishingService.publishTweetWithRefresh,
      TwitterPublishingService.publishTweetWithRefreshOnError,
      TwitterPublishingService.prepareTweetPayload,
      TwitterPublishingService.uploadMedia_ok, herr,
      TwitterPublishingService.updateTwitterCredentials,
      utils.publishTweet, utils.refreshTwitterAccessToken,
      mkCreds, strTruthy_some, strTruthy_none, isAuthError,
      himg, hu, hpost0, hrefresh, hcred, hm0, hm0ne,
      huid, htok, hrtok, hna, hnr, tokenExpiredResult,
      countPost, countRefresh, countMedia, countCredUpdate, Event.isPost, Event.isRefresh,
      Event.isMediaUpload, Event.isCredUpdate, List.filter]

/-- Witness for claim C10 at a concrete environment (the retried post
call failing with 403). -/
theorem C10_retry_failures_token_expired_witness :
    let r := TwitterPublishingService.publishTweetWithRefresh envPost401Then403
      { text := "hello" } { creds := mkCreds (some "user1") "tokA" (some "rtA"), trace := [] }
    r.fst.success = false ∧ r.fst.message = "Twitter authentication failed" ∧
    r.fst.errorCode = some (ErrCode.s "token_expired") ∧
    r.fst.errorDetails =
      some "Your Twitter connection has expired. Please reconnect your Twitter account." := by
  have h1 : ("user1" : String) ≠ "" := by decide
  have h2 : ("tokA" : String) ≠ "" := by decide
  have h3 : ("rtA" : String) ≠ "" := by decide
  have h4 : ("newAccess" : String) ≠ "" := by decide
  have h5 : ("newRefresh" : String) ≠ "" := by decide
  have hmain := C10_retry_failures_token_expired envPost401Then403 { text := "hello" }
    "user1" "tokA" "rtA" "newAccess" "newRefresh" "Unauthorized" h1 h2 h3 h4 h5
    rfl rfl (Or.inr (Or.inl ⟨rfl, rfl, 403, "Forbidden", rfl⟩))
  exact hmain

/-- Counterexample to claim C7 as stated: in a publish with an image, the
first post call gets 401, the refresh returns the pair
newAccess/newRefresh, yet the media re-upload of the retried attempt
still runs under the pre-refresh token oldAccess (fifth trace event) —
only the retried post call uses newAccess. -/
theorem C7_stale_token_media_reupload_counterexample :
    let r := TwitterPublishingService.publishTweetWithRefresh envPost401ThenOk
      { text := "pic", imageUrl := some "http://img" }
      { creds := mkCreds (some "user1") "oldAccess" (some "oldRefresh"), trace := [] }
    r.snd.trace =
      [Event.mediaUpload "oldAccess" "http://img",
       Event.post "oldAccess" { text := "pic", mediaIds := some ["m0"] },
       Event.refresh "oldRefresh",
       Event.credUpdate "user1" "newAccess" "newRefresh",
       Event.mediaUpload "oldAccess" "http://img",
       Event.post "newAccess" { text := "pic", mediaIds := some ["m1"] }] ∧
    "oldAccess" ≠ "newAccess" := by
  intro r
  simp only [r]
  constructor
  · simp [TwitterPublishingService.publishTweetWithRefresh,
      TwitterPublishingService.publishTweetWithRefreshOnError,
      TwitterPublishingService.prepareTweetPayload,
      TwitterPublishingService.uploadMedia_ok,
      TwitterPublishingService.updateTwitterCredentials,
      utils.publishTweet, utils.refreshTwitterAccessToken,
      envPost401ThenOk, envBase, mkCreds, strTruthy_some, strTruthy_none, isAuthError,
      countPost, countRefresh, countMedia, countCredUpdate, Event.isPost, Event.isRefresh,
      Event.isMediaUpload, Event.isCredUpdate, List.filter, jsStrOpt, jsListOpt]
  · decide

/-- Amended claim C7: after a 401-triggered refresh, the retried post
call uses exactly the refreshed access token, but the media re-upload of
the retried attempt uses the pre-refresh in-memory access token —
`publishTweetWithRefresh` persists the refreshed pair to the store
without updating the in-memory credentials object, so the retried
`prepareTweetPayload` hands the stale token to `uploadMedia`. -/
theorem C7_amended_retry_token_use (env : Env) (options : PublishOptions)
    (uid tok rtok na nr msg1 id2 u m0 m1 : String)
    (huid : uid ≠ "") (htok : tok ≠ "") (hrtok : rtok ≠ "") (hna : na ≠ "") (hnr : nr ≠ "")
    (himg : options.imageUrl = some u) (hu : u ≠ "")
    (hm0 : env.mediaOutcome 0 = HttpMedia.ok m0) (hm0ne : m0 ≠ "")
    (hm1 : env.mediaOutcome 1 = HttpMedia.ok m1) (hm1ne : m1 ≠ "")
    (hpost0 : env.postOutcome 0 = HttpPost.notOk 401 msg1)
    (hrefresh : env.refreshOutcome 0 = HttpRefresh.ok (some na) (some nr))
    (hcred : env.credUpdateErr 0 = none)
    (hpost1 : env.postOutcome 1 = HttpPost.ok id2) :
    let r := TwitterPublishingService.publishTweetWithRefresh env options
      { creds := mkCreds (some uid) tok (some rtok), trace := [] }
    r.snd.trace =
      [Event.mediaUpload tok u,
       Event.post tok { text := options.text, mediaIds := some [m0],
                        inReplyToTweetId := jsStrOpt options.replyToTweetId },
       Event.refresh rtok,
       Event.credUpdate uid na nr,
       Event.mediaUpload tok u,
       Event.post na { text := options.text, mediaIds := some [m1],
                       inReplyToTweetId := jsStrOpt options.replyToTweetId }] ∧
    r.fst.success = true ∧ r.fst.twitterTweetId = some id2 := by
  intro r
  simp only [r]
  simp [TwitterPublishingService.publishTweetWithRefresh,
    TwitterPublishingService.publishTweetWithRefreshOnError,
    TwitterPublishingService.prepareTweetPayload,
    TwitterPublishingService.uploadMedia_ok,
    TwitterPublishingService.updateTwitterCredentials,
    utils.publishTweet, utils.refreshTwitterAccessToken,
    mkCreds, strTruthy_some, strTruthy_none, isAuthError,
    himg, hu, hm0, hm0ne, hm1, hm1ne, hpost0, hrefresh, hcred, hpost1,
    huid, htok, hrtok, hna, hnr,
    countPost, countRefresh, countMedia, countCredUpdate, Event.isPost, Event.isRefresh,
    Event.isMediaUpload, Event.isCredUpdate, List.filter, jsListOpt]

/-- Witness for the amended claim C7 at a concrete environment. -/
theorem C7_amended_retry_token_use_witness :
    let r := TwitterPublishingService.publishTweetWithRefresh envPost401ThenOk
      { text := "pic", imageUrl := some "http://img" }
      { creds := mkCreds (some "user1") "oldAccess" (some "oldRefresh"), trace := [] }
    r.snd.trace =
      [Event.mediaUpload "oldAccess" "http://img",
       Event.post "oldAccess" { text := "pic", mediaIds := some ["m0"],
                                inReplyToTweetId := jsStrOpt none },
       Event.refresh "oldRefresh",
       Event.credUpdate "user1" "newAccess" "newRefresh",
       Event.mediaUpload "oldAccess" "http://img",
       Event.post "newAccess" { text := "pic", mediaIds := some ["m1"],
                                inReplyToTweetId := jsStrOpt none }] ∧
    r.fst.success = true ∧ r.fst.twitterTweetId = some "tid1" := by
  have h1 : ("user1" : String) ≠ "" := by decide
  have h2 : ("oldAccess" : String) ≠ "" := by decide
  have h3 : ("oldRefresh" : String) ≠ "" := by decide
  have h4 : ("newAccess" : String) ≠ "" := by decide
  have h5 : ("newRefresh" : String) ≠ "" := by decide
  have h6 : ("http://img" : String) ≠ "" := by decide
  have h7 : ("m0" : String) ≠ "" := by decide
  have h8 : ("m1" : String) ≠ "" := by decide
  have hmain := C7_amended_retry_token_use envPost401ThenOk
    { text := "pic", imageUrl := some "http://img" }
    "user1" "oldAccess" "oldRefresh" "newAccess" "newRefresh" "Unauthorized" "tid1"
    "http://img" "m0" "m1" h1 h2 h3 h4 h5 rfl h6 rfl h7 rfl h8 rfl rfl rfl rfl
  exact hmain

/-- Claim C3: in a thread whose sorted prefix of `good` posts publishes
cleanly and whose next post `bad` fails, the prefix is published and
persisted in order with each post replying to the id assigned to its
predecessor (the shape of `okChainEvents`), the posts after `bad` are
never attempted (the trace ends at the failing post call), and the
aggregate reports success = false with `good.length` — that is, k minus
one — published posts out of the total. -/
theorem C3_thread_stops_at_first_failure (env : Env) (uid pid : String)
    (good : List ThreadTweet) (bad : ThreadTweet) (rest : List ThreadTweet)
    (creds : TwitterCredentials) (ids : Nat → String) (s : Nat) (m : String)
    (haccess : (env.projectAccess uid pid).isAuthorized = true)
    (hcreds : env.getCredentials uid = some creds)
    (htok : creds.oauthCredentials.accessToken ≠ "")
    (hrt : creds.oauthCredentials.refreshToken = none)
    (hsorted : List.Pairwise (fun a b => threadPositionKey a ≤ threadPositionKey b)
      (good ++ bad :: rest))
    (hgood : good ≠ [])
    (hunpub : ∀ t ∈ good, ¬ t.status = some TweetStatus.PUBLISHED)
    (hmedia : ∀ t ∈ good, t.imageUrl = none)
    (hbadunpub : ¬ bad.status = some TweetStatus.PUBLISHED)
    (hbadmedia : bad.imageUrl = none)
    (hok : ∀ i, i < good.length → env.postOutcome i = HttpPost.ok (ids i))
    (hids : ∀ n, ids n ≠ "")
    (hsu : ∀ i, i < good.length → env.statusUpdateErr i = none)
    (hfail : env.postOutcome good.length = HttpPost.notOk s m) :
    let r := TwitterPublishingService.publishThreadTweets env uid pid (good ++ bad :: rest)
    r.fst.success = false ∧
    r.fst.results = okChainItems ids 0 good ++
      [{ tweetId := bad.tweetId, publishedTweetId := none, success := false,
         message := "Failed to publish tweet" }] ∧
    (r.fst.results.filter (fun x => x.success)).length = good.length ∧
    r.snd = okChainEvents creds.oauthCredentials.accessToken pid ids 0 none good ++
      [Event.post creds.oauthCredentials.accessToken
        (threadPayload bad (okChainPrev ids 0 none good))] ∧
    countPost r.snd = good.length + 1 ∧
    r.fst.message = s!"Thread publishing stopped after {good.length}/{(good ++ bad :: rest).length} tweets to maintain thread integrity" := by
  intro r
  simp only [r]
  rw [TwitterPublishingService.publishThreadTweets]
  rw [if_neg (by simp [haccess])]
  rw [show TwitterPublishingService.getTwitterCredentials env uid = some creds from by
    simp [TwitterPublishingService.getTwitterCredentials, hcreds, htok]]
  dsimp only
  rw [if_neg (by simp [List.length_append])]
  rw [sortByThreadPosition_sorted_id _ hsorted]
  rw [TwitterPublishingService.publishThreadLoop_ok_chain env pid good (bad :: rest) none []
    { creds := creds, trace := [] } ids hunpub hmedia
    (by intro i hi; simpa [countPost_nil] using hok i hi) hids
    (by intro i hi; simpa [countStatusUpdate_nil] using hsu i hi)]
  rw [TwitterPublishingService.publishThreadLoop_cons]
  rw [if_neg (by simp [hbadunpub])]
  have hrun := TwitterPublishingService.publishTweetWithRefresh_post_err_noRefresh env
    (threadTweetOptions bad (okChainPrev ids (countPost ([] : List Event)) none good))
    { creds := creds
      trace := [] ++ okChainEvents creds.oauthCredentials.accessToken pid ids
        (countPost ([] : List Event)) none good } s m
    (by simp [threadTweetOptions, hbadmedia]) hrt
    (by simpa [countPost_nil, countPost_append, countPost_okChainEvents] using hfail)
  rw [hrun]
  simp [apiErrorResult, threadTweetOptions, threadPayload, jsStrOpt_idem,
    okChainItems_all_success, okChainItems_filter_success, okChainItems_length,
    countPost_append, countPost_cons, countPost_nil, countPost_okChainEvents,
    Event.isPost, List.filter_append, hgood, List.length_append]

/-- Witness for claim C3 at a concrete three-post thread whose second
post fails. -/
theorem C3_thread_stops_at_first_failure_witness :
    let r := TwitterPublishingService.publishThreadTweets envThreadFailSecond "u1" "p1"
      ([tweetA] ++ tweetB :: [tweetC])
    r.fst.success = false ∧
    r.fst.results = okChainItems (fun _ => "id0") 0 [tweetA] ++
      [{ tweetId := "b", publishedTweetId := none, success := false,
         message := "Failed to publish tweet" }] ∧
    (r.fst.results.filter (fun x => x.success)).length = [tweetA].length ∧
    r.snd = okChainEvents "tok" "p1" (fun _ => "id0") 0 none [tweetA] ++
      [Event.post "tok" (threadPayload tweetB (okChainPrev (fun _ => "id0") 0 none [tweetA]))] ∧
    countPost r.snd = [tweetA].length + 1 ∧
    r.fst.message = s!"Thread publishing stopped after {[tweetA].length}/{([tweetA] ++ tweetB :: [tweetC]).length} tweets to maintain thread integrity" := by
  have hok : ∀ i, i < [tweetA].length → envThreadFailSecond.postOutcome i =
      HttpPost.ok ((fun _ => "id0") i) := by
    intro i hi
    have h0 : i = 0 := by simpa using hi
    subst h0
    rfl
  have hid : ("id0" : String) ≠ "" := by decide
  have hmain := C3_thread_stops_at_first_failure envThreadFailSecond "u1" "p1"
    [tweetA] tweetB [tweetC] (mkCreds none "tok" none) (fun _ => "id0") 500 "boom"
    rfl rfl (by decide) rfl (by decide) (by decide) (by decide) (by decide)
    (by decide) rfl hok (fun _ => hid) (fun i _ => rfl) rfl
  exact hmain

/-- Claim C4: re-invoking `publishThreadTweets` on a thread whose sorted
prefix `pub` is already marked published performs no publish API call for
that prefix — the whole trace is the `okChainEvents` run of the remaining
posts only — and the first not-yet-published post is chained (its
reply-target set) to the stored provider id of the last already-published
post of the prefix. -/
theorem C4_thread_idempotent_reentry (env : Env) (uid pid : String)
    (pub : List ThreadTweet) (next : ThreadTweet) (rest : List ThreadTweet)
    (creds : TwitterCredentials) (ids : Nat → String) (lastId : String)
    (haccess : (env.projectAccess uid pid).isAuthorized = true)
    (hcreds : env.getCredentials uid = some creds)
    (htok : creds.oauthCredentials.accessToken ≠ "")
    (hsorted : List.Pairwise (fun a b => threadPositionKey a ≤ threadPositionKey b)
      (pub ++ next :: rest))
    (hpubst : ∀ t ∈ pub, t.status = some TweetStatus.PUBLISHED)
    (hlast : lastPubPrev pub none = some lastId)
    (hlastne : lastId ≠ "")
    (hunpub : ∀ t ∈ next :: rest, ¬ t.status = some TweetStatus.PUBLISHED)
    (hmedia : ∀ t ∈ next :: rest, t.imageUrl = none)
    (hok : ∀ i, i < (next :: rest).length → env.postOutcome i = HttpPost.ok (ids i))
    (hids : ∀ n, ids n ≠ "")
    (hsu : ∀ i, i < (next :: rest).length → env.statusUpdateErr i = none) :
    let r := TwitterPublishingService.publishThreadTweets env uid pid (pub ++ next :: rest)
    r.snd = okChainEvents creds.oauthCredentials.accessToken pid ids 0 (some lastId)
      (next :: rest) ∧
    countPost r.snd = rest.length + 1 ∧
    r.snd.head? = some (Event.post creds.oauthCredentials.accessToken
      { text := next.text, mediaIds := jsListOpt next.mediaIds,
        inReplyToTweetId := some lastId }) ∧
    r.fst.success = true := by
  intro r
  simp only [r]
  rw [TwitterPublishingService.publishThreadTweets]
  rw [if_neg (by simp [haccess])]
  rw [show TwitterPublishingService.getTwitterCredentials env uid = some creds from by
    simp [TwitterPublishingService.getTwitterCredentials, hcreds, htok]]
  dsimp only
  rw [if_neg (by simp [List.length_append])]
  rw [sortByThreadPosition_sorted_id _ hsorted]
  rw [TwitterPublishingService.publishThreadLoop_skip env pid pub (next :: rest) none []
    { creds := creds, trace := [] } hpubst]
  rw [hlast]
  rw [show (next :: rest) = (next :: rest) ++ ([] : List ThreadTweet) from
    (List.append_nil _).symm]
  rw [TwitterPublishingService.publishThreadLoop_ok_chain env pid (next :: rest) []
    (some lastId) [] { creds := creds, trace := [] } ids hunpub hmedia
    (by intro i hi; simpa [countPost_nil] using hok i hi) hids
    (by intro i hi; simpa [countStatusUpdate_nil] using hsu i hi)]
  rw [TwitterPublishingService.publishThreadLoop_nil]
  simp [okChainEvents, threadPayload, okChainItems_all_success, countPost_okChainEvents,
    jsStrOpt, hlastne, countPost_cons, countPost_nil, Event.isPost]

/-- Witness for claim C4 at a concrete thread with an already-published
first post. -/
theorem C4_thread_idempotent_reentry_witness :
    let r := TwitterPublishingService.publishThreadTweets envBase "u1" "p1"
      ([tweetP] ++ tweetB :: [])
    r.snd = okChainEvents "tok" "p1" (fun _ => "tid0") 0 (some "prev0") (tweetB :: []) ∧
    countPost r.snd = ([] : List ThreadTweet).length + 1 ∧
    r.snd.head? = some (Event.post "tok"
      { text := "tb", mediaIds := jsListOpt none, inReplyToTweetId := some "prev0" }) ∧
    r.fst.success = true := by
  have hid : ("tid0" : String) ≠ "" := by decide
  have hmain := C4_thread_idempotent_reentry envBase "u1" "p1" [tweetP] tweetB []
    (mkCreds none "tok" (some "rt")) (fun _ => "tid0") "prev0"
    rfl rfl (by decide) (by decide) (by decide) rfl (by decide) (by decide) (by decide)
    (fun i _ => rfl) (fun _ => hid) (fun i _ => rfl)
  exact hmain

/-- Counterexample to claim C5 as stated: the provider accepts the post
(the post call returns an id), the Firestore status write then rejects,
and `publishTweet` reports success = false with message Internal server
error — the publish is not reported successful to the caller. -/
theorem C5_persist_failure_counterexample :
    let r := TwitterPublishingService.publishTweet envStatusWriteFails "u1"
      { tweetId := "tw", projectId := "p1", text := "hello" }
    envStatusWriteFails.postOutcome 0 = HttpPost.ok "tid0" ∧
    countPost r.snd = 1 ∧
    r.fst.success = false ∧
    r.fst.message = "Internal server error" := by
  exact ⟨rfl, rfl, rfl, rfl⟩

/-- Amended claim C5: when the provider accepts the post but persisting
the published status fails, `publishTweet` does not report the publish as
successful — the persistence exception escapes to the outer catch and the
caller receives success = false with message Internal server error and
the write errors message as details. -/
theorem C5_amended_persist_failure_reported (env : Env) (uid : String)
    (options : TwitterPublishingService.ServiceOptions) (creds : TwitterCredentials) (doc : TweetDoc)
    (id : String) (e : JsError)
    (hv1 : options.tweetId ≠ "") (hv2 : options.projectId ≠ "") (hv3 : options.text ≠ "")
    (haccess : (env.projectAccess uid options.projectId).isAuthorized = true)
    (hgroup : options.groupId = none)
    (hcreds : env.getCredentials uid = some creds)
    (htok : creds.oauthCredentials.accessToken ≠ "")
    (hdoc : env.tweetDoc options.projectId options.tweetId = some doc)
    (himg : doc.imageUrl = none) (himg2 : options.imageUrl = none)
    (hpost : env.postOutcome 0 = HttpPost.ok id) (hid : id ≠ "")
    (hsu : env.statusUpdateErr 0 = some e) :
    let r := TwitterPublishingService.publishTweet env uid options
    countPost r.snd = 1 ∧ r.fst.success = false ∧
    r.fst.message = "Internal server error" ∧ r.fst.errorDetails = some e.message := by
  intro r
  simp only [r]
  rw [TwitterPublishingService.publishTweet]
  rw [if_neg (by simp [hv1, hv2, hv3])]
  rw [if_neg (by simp [haccess])]
  rw [if_neg (by simp [hgroup, strTruthy_none])]
  rw [show TwitterPublishingService.getTwitterCredentials env uid = some creds from by
    simp [TwitterPublishingService.getTwitterCredentials, hcreds, htok]]
  rw [hdoc]
  dsimp only
  rw [TwitterPublishingService.publishTweetWithRefresh_post_ok env _ _ id
    (by simp [TwitterPublishingService.mergeDocIntoOptions, himg, himg2]) (by simpa [countPost_nil] using hpost)]
  rw [if_pos (by simp [strTruthy_some, hid])]
  rw [TwitterPublishingService.updateTweetStatus]
  rw [show countStatusUpdate (([] : List Event) ++
      [Event.post creds.oauthCredentials.accessToken
        { text := (TwitterPublishingService.mergeDocIntoOptions options doc).text,
          mediaIds := jsListOpt (TwitterPublishingService.mergeDocIntoOptions options doc).mediaIds,
          inReplyToTweetId := jsStrOpt (TwitterPublishingService.mergeDocIntoOptions options doc).replyToTweetId }]) = 0
    from by simp [countStatusUpdate_nil, countStatusUpdate_cons, countStatusUpdate_append,
      Event.isStatusUpdate]]
  rw [hsu]
  simp [countPost_nil, countPost_cons, countPost_append, Event.isPost, Event.isStatusUpdate]

/-- Witness for the amended claim C5 at a concrete environment. -/
theorem C5_amended_persist_failure_reported_witness :
    let r := TwitterPublishingService.publishTweet envStatusWriteFails "u1"
      { tweetId := "tw", projectId := "p1", text := "hello" }
    countPost r.snd = 1 ∧ r.fst.success = false ∧
    r.fst.message = "Internal server error" ∧
    r.fst.errorDetails = some ({ message := "firestore update failed" } : JsError).message := by
  have hmain := C5_amended_persist_failure_reported envStatusWriteFails "u1"
    { tweetId := "tw", projectId := "p1", text := "hello" }
    (mkCreds none "tok" (some "rt")) {} "tid0" { message := "firestore update failed" }
    (by decide) (by decide) (by decide) rfl rfl rfl (by decide) rfl rfl rfl rfl (by decide) rfl
  exact hmain

/-- Counterexample to claim C6 as stated: `publishThreadTweets` consults
no group record at all — with every group disabled, a one-post thread
tagged with a group is still posted to the provider and the thread
reports success = true. -/
theorem C6_group_disabled_thread_counterexample :
    let r := TwitterPublishingService.publishThreadTweets envGroupsDisabled "u1" "p1"
      [{ tweetId := "a", text := "ta", threadPosition := some 1, groupId := some "g1" }]
    envGroupsDisabled.getGroup "g1" = some { isEnabled := some false } ∧
    countPost r.snd = 1 ∧ r.fst.success = true := by
  exact ⟨rfl, rfl, rfl⟩

/-- Amended claim C6: for single posts, `publishTweet` on a draft tagged
with an existing group whose `isEnabled` is false performs zero calls to
the provider and returns success = false with the group-disabled message;
`publishThreadTweets`, however, performs no group check, so a thread
tagged with a disabled group is published normally. -/
theorem C6_amended_group_disabled_post_only (env : Env) (uid : String)
    (options : TwitterPublishingService.ServiceOptions) (gid : String) (g : GroupData)
    (hv1 : options.tweetId ≠ "") (hv2 : options.projectId ≠ "") (hv3 : options.text ≠ "")
    (haccess : (env.projectAccess uid options.projectId).isAuthorized = true)
    (hgid : options.groupId = some gid) (hgidne : gid ≠ "")
    (hgroup : env.getGroup gid = some g) (hdis : g.isEnabled = some false) :
    let r := TwitterPublishingService.publishTweet env uid options
    r.snd = [] ∧ r.fst.success = false ∧
    r.fst.message = "Group is disabled. Tweet will not be published." := by
  intro r
  simp only [r]
  rw [TwitterPublishingService.publishTweet]
  rw [if_neg (by simp [hv1, hv2, hv3])]
  rw [if_neg (by simp [haccess])]
  rw [if_pos (by simp [hgid, strTruthy_some, hgidne, TwitterPublishingService.groupDisabled, hgroup, hdis])]
  exact ⟨rfl, rfl, rfl⟩

/-- Witness for the amended claim C6 at a concrete environment. -/
theorem C6_amended_group_disabled_post_only_witness :
    let r := TwitterPublishingService.publishTweet envGroupsDisabled "u1"
      { tweetId := "tw", projectId := "p1", text := "hello", groupId := some "g1" }
    r.snd = [] ∧ r.fst.success = false ∧
    r.fst.message = "Group is disabled. Tweet will not be published." := by
  have hmain := C6_amended_group_disabled_post_only envGroupsDisabled "u1"
    { tweetId := "tw", projectId := "p1", text := "hello", groupId := some "g1" }
    "g1" { isEnabled := some false }
    (by decide) (by decide) (by decide) rfl rfl (by decide) rfl rfl
  exact hmain

/-- The poll run never reports fewer STATUS calls than it started with. -/
theorem checkMediaProcessingStatus_calls_le (statusResp : Nat → StatusResponse) (fuel : Nat) :
    ∀ (pi : ProcessingInfo) (k : Nat),
    k ≤ (checkMediaProcessingStatus statusResp fuel pi k).snd := by
  induction fuel with
  | zero =>
    intro pi k
    rw [checkMediaProcessingStatus]
    by_cases hs : pi.state = "succeeded"
    · simp [hs]
    · cases hresp : statusResp k with
      | notOk s t => simp [hs, hresp]
      | ok info => cases info <;> simp [hs, hresp]
  | succ f ih =>
    intro pi k
    rw [checkMediaProcessingStatus]
    by_cases hs : pi.state = "succeeded"
    · simp [hs]
    · cases hresp : statusResp k with
      | notOk s t => simp [hs, hresp]
      | ok info =>
        cases info with
        | none => simp [hs, hresp]
        | some info2 =>
          simp [hs, hresp]
          have := ih info2 (k + 1)
          omega

/-- A poll entered on a non-succeeded state performs at least one STATUS
call. -/
theorem checkMediaProcessingStatus_calls_lt (statusResp : Nat → StatusResponse) (fuel : Nat)
    (pi : ProcessingInfo) (k : Nat) (hs : ¬ pi.state = "succeeded") :
    k + 1 ≤ (checkMediaProcessingStatus statusResp fuel pi k).snd := by
  rw [checkMediaProcessingStatus]
  cases hresp : statusResp k with
  | notOk s t => simp [hs, hresp]
  | ok info =>
    cases info with
    | none => simp [hs, hresp]
    | some info2 =>
      cases fuel with
      | zero => simp [hs, hresp]
      | succ f =>
        simp [hs, hresp]
        have := checkMediaProcessingStatus_calls_le statusResp f info2 (k + 1)
        omega

/-- A resolved poll run started on a non-succeeded state owes its
resolution to a STATUS response: one without `processing_info`, or one
whose `processing_info.state` is succeeded. -/
theorem checkMediaProcessingStatus_resolved_source (statusResp : Nat → StatusResponse)
    (fuel : Nat) : ∀ (pi : ProcessingInfo) (k : Nat),
    (checkMediaProcessingStatus statusResp fuel pi k).fst = PollOutcome.resolved →
    pi.state = "succeeded" ∨ (∃ i, statusResp i = StatusResponse.ok none) ∨
    (∃ i info, statusResp i = StatusResponse.ok (some info) ∧ info.state = "succeeded") := by
  induction fuel with
  | zero =>
    intro pi k h
    by_cases hs : pi.state = "succeeded"
    · exact Or.inl hs
    · rw [checkMediaProcessingStatus] at h
      cases hresp : statusResp k with
      | notOk s t => rw [if_neg hs, hresp] at h; simp at h
      | ok info =>
        cases info with
        | none => exact Or.inr (Or.inl ⟨k, hresp⟩)
        | some info2 => rw [if_neg hs, hresp] at h; simp at h
  | succ f ih =>
    intro pi k h
    by_cases hs : pi.state = "succeeded"
    · exact Or.inl hs
    · rw [checkMediaProcessingStatus] at h
      cases hresp : statusResp k with
      | notOk s t => rw [if_neg hs, hresp] at h; simp at h
      | ok info =>
        cases info with
        | none => exact Or.inr (Or.inl ⟨k, hresp⟩)
        | some info2 =>
          rw [if_neg hs, hresp] at h
          simp only [] at h
          rcases ih info2 (k + 1) h with h1 | h2 | h3
          · exact Or.inr (Or.inr ⟨k, info2, hresp, h1⟩)
          · exact Or.inr (Or.inl h2)
          · exact Or.inr (Or.inr h3)

/-- An errored poll run owes its error to a failed STATUS HTTP call. -/
theorem checkMediaProcessingStatus_errored_source (statusResp : Nat → StatusResponse)
    (fuel : Nat) : ∀ (pi : ProcessingInfo) (k : Nat) (msg : String),
    (checkMediaProcessingStatus statusResp fuel pi k).fst = PollOutcome.errored msg →
    ∃ i s t, statusResp i = StatusResponse.notOk s t := by
  induction fuel with
  | zero =>
    intro pi k msg h
    rw [checkMediaProcessingStatus] at h
    by_cases hs : pi.state = "succeeded"
    · rw [if_pos hs] at h; simp at h
    · cases hresp : statusResp k with
      | notOk s t => exact ⟨k, s, t, hresp⟩
      | ok info =>
        cases info with
        | none => rw [if_neg hs, hresp] at h; simp at h
        | some info2 => rw [if_neg hs, hresp] at h; simp at h
  | succ f ih =>
    intro pi k msg h
    rw [checkMediaProcessingStatus] at h
    by_cases hs : pi.state = "succeeded"
    · rw [if_pos hs] at h; simp at h
    · cases hresp : statusResp k with
      | notOk s t => exact ⟨k, s, t, hresp⟩
      | ok info =>
        cases info with
        | none => rw [if_neg hs, hresp] at h; simp at h
        | some info2 =>
          rw [if_neg hs, hresp] at h
          simp only [] at h
          exact ih info2 (k + 1) msg h

/-- Counterexample to claim C8 as stated: with every STATUS response
reporting `processing_info.state = "failed"`, a poll started on a pending
state does not fail when the provider reports the failure state — it
keeps polling (six STATUS calls under fuel 5) and never produces an
error outcome, contradicting that the loop never continues polling past a
provider-reported terminal failure. -/
theorem C8_poll_failed_not_terminal_counterexample :
    failPollResp 0 = StatusResponse.ok (some { state := "failed" }) ∧
    checkMediaProcessingStatus failPollResp 5 { state := "pending" } 0 =
      (PollOutcome.stillPolling, 6) := ⟨rfl, rfl⟩

/-- Amended claim C8: the processing poll loop terminates in exactly two
ways — it resolves with the media handle when the provider reports the
succeeded state (at entry or in a response) or omits `processing_info`
altogether, and it fails by propagating an error only when a STATUS HTTP
call itself fails; a provider-reported `processing_info` state of failed
is not terminal: the loop continues polling past it. -/
theorem C8_amended_poll_loop (statusResp : Nat → StatusResponse) (fuel : Nat)
    (pi : ProcessingInfo) (k : Nat) :
    ((checkMediaProcessingStatus statusResp fuel pi k).fst = PollOutcome.resolved →
      pi.state = "succeeded" ∨ (∃ i, statusResp i = StatusResponse.ok none) ∨
      (∃ i info, statusResp i = StatusResponse.ok (some info) ∧ info.state = "succeeded")) ∧
    (∀ msg, (checkMediaProcessingStatus statusResp fuel pi k).fst = PollOutcome.errored msg →
      ∃ i s t, statusResp i = StatusResponse.notOk s t) ∧
    (∀ info, ¬ pi.state = "succeeded" → statusResp k = StatusResponse.ok (some info) →
      info.state = "failed" → 0 < fuel →
      k + 2 ≤ (checkMediaProcessingStatus statusResp fuel pi k).snd) := by
  refine ⟨checkMediaProcessingStatus_resolved_source statusResp fuel pi k,
    fun msg => checkMediaProcessingStatus_errored_source statusResp fuel pi k msg,
    fun info hs hresp hfail hfuel => ?_⟩
  cases fuel with
  | zero => omega
  | succ f =>
    rw [checkMediaProcessingStatus]
    rw [if_neg hs, hresp]
    simp only []
    have hne : ¬ info.state = "succeeded" := by rw [hfail]; decide
    exact checkMediaProcessingStatus_calls_lt statusResp f info (k + 1) hne

/-- Witness for the amended claim C8 at a concrete input: after the
provider reports state failed at the first poll, the run performs at
least a second STATUS call. -/
theorem C8_amended_poll_loop_witness :
    0 + 2 ≤ (checkMediaProcessingStatus failPollResp 5 { state := "pending" } 0).snd := by
  have hmain := C8_amended_poll_loop failPollResp 5 { state := "pending" } 0
  exact hmain.2.2 { state := "failed" } (by decide) rfl (by decide) (by omega)

end TwitterUtils
